import Mathlib

/-!
Verification development for the ACP (Agent Control Protocol) session layer:
a shallow embedding, in Lean, of the repository's protocol session, chat
session, sentence extractor and duplex bridge, together with theorems about
the behaviours the specification describes.

Conventions used throughout:
* JavaScript strings are modelled as `String` / `List Char` with `Nat`
  indices (the inputs of interest are ASCII, so UTF-16 code-unit indexing
  and character indexing agree).
* JavaScript regular-expression tests are translated into explicit
  decidable scans over `List Char`.
* Where the source iterates with a cursor that strictly increases, the
  loop is embedded with a fuel argument initialised to an upper bound on
  the number of iterations (the cursor moves by at least one per step, so
  `length + 1` steps always suffice and the fuel-exhausted branch is
  unreachable).
-/

/-! ## Sentence extractor (sentenceDetector.ts) -/

/-- `text[i]` for in-range accesses; every use below is range-guarded as in
the source, the default is the NUL character (not a letter, digit,
whitespace, quote or bracket). -/
def jsCharAt (cs : List Char) (i : Nat) : Char := cs.getD i (Char.ofNat 0)

/-- `text.slice(a, b)` for `a ≤ b` (all uses below satisfy this). -/
def jsSlice (cs : List Char) (a b : Nat) : List Char := (cs.take b).drop a

/-- `String.prototype.trim` on a character list. -/
def jsTrim (cs : List Char) : List Char :=
  ((cs.dropWhile Char.isWhitespace).reverse.dropWhile Char.isWhitespace).reverse

/-- `String.prototype.trim` (modelled via `jsTrim`; Lean's own
`String.trim` is not kernel-reducible, this one is). -/
def jsStrTrim (s : String) : String := String.mk (jsTrim s.toList)

/-- The `COMMON_ABBREVIATIONS` set. -/
def commonAbbreviations : List String :=
  ["mr", "mrs", "ms", "dr", "prof", "sr", "jr", "vs", "etc", "inc", "ltd",
   "co", "st", "ave", "blvd", "rd", "jan", "feb", "mar", "apr", "jun",
   "jul", "aug", "sep", "oct", "nov", "dec", "e.g", "i.e", "cf", "al",
   "et", "no", "vol", "pp", "fig", "approx", "dept", "est", "govt",
   "misc", "ref"]

/-- Index of the first occurrence of a triple backtick, if any. -/
def findTriple : List Char → Option Nat
  | '`' :: '`' :: '`' :: _ => some 0
  | _ :: rest => (findTriple rest).map (· + 1)
  | [] => none

/-- `text.replace(/```[\s\S]*?```/g, " ")`: each complete fenced block
(lazy match: the closing fence is the first triple backtick after the
opening one) is replaced by a single space.  Fuel bounds the number of
replacements; `cs.length` always suffices. -/
def stripBlocksAux : Nat → List Char → List Char
  | 0, cs => cs
  | fuel + 1, cs =>
    match findTriple cs with
    | none => cs
    | some i =>
      let rest := cs.drop (i + 3)
      match findTriple rest with
      | none => cs
      | some j => cs.take i ++ ' ' :: stripBlocksAux fuel (rest.drop (j + 3))

/-- Does the list start with a triple backtick that is followed by no
further backtick? -/
def tripleThenNoTick : List Char → Bool
  | '`' :: '`' :: '`' :: rest => !(rest.contains '`')
  | _ => false

/-- `/```[^`]*$/.test(text)`: some triple backtick is followed by no
further backtick up to the end of the string (checked at every start
position, as the regex engine does). -/
def hasUnclosedBlock : List Char → Bool
  | [] => false
  | cs@(_ :: rest) => tripleThenNoTick cs || hasUnclosedBlock rest

/-- `stripCodeBlocks`: cleaned text plus the unclosed-fence flag. -/
def stripCodeBlocks (cs : List Char) : List Char × Bool :=
  (stripBlocksAux cs.length cs, hasUnclosedBlock cs)

/-- `/[a-zA-Z.]/` — the characters the abbreviation scan walks back over. -/
def isAbbrevWordChar (c : Char) : Bool := c.isAlpha || c == '.'

/-- The `wordStart` computation of `isAbbreviation`: walk left from
`periodIndex - 1` while the character is a letter or a dot. -/
def wordStartBefore (cs : List Char) : Nat → Nat
  | 0 => 0
  | j + 1 => if isAbbrevWordChar (jsCharAt cs j) then wordStartBefore cs j else j + 1

/-- `(\.[a-z])+`-shaped tail (case-insensitive), possibly empty. -/
def dotLetterGroupsOnly : List Char → Bool
  | [] => true
  | '.' :: c :: rest => c.isAlpha && dotLetterGroupsOnly rest
  | _ => false

/-- `/^[a-z](\.[a-z])+$/i`: a letter followed by one or more dot-letter
groups, consuming the whole word. -/
def multiDotAbbrev : List Char → Bool
  | c :: '.' :: d :: rest => c.isAlpha && d.isAlpha && dotLetterGroupsOnly rest
  | _ => false

/-- `isAbbreviation(text, periodIndex)`. -/
def isAbbreviation (cs : List Char) (periodIndex : Nat) : Bool :=
  let ws := wordStartBefore cs periodIndex
  let word := (jsSlice cs ws periodIndex).map Char.toLower
  if commonAbbreviations.contains (String.mk word) then true
  else if word.length == 1 && (jsCharAt word 0).isAlpha then true
  else multiDotAbbrev (word ++ ['.'])

/-- `isDecimalNumber(text, periodIndex)`: a digit on both sides. -/
def isDecimalNumber (cs : List Char) (i : Nat) : Bool :=
  (decide (0 < i) && (jsCharAt cs (i - 1)).isDigit) &&
    (decide (i + 1 < cs.length) && (jsCharAt cs (i + 1)).isDigit)

/-- Does `cs` end with an occurrence of `pat` followed only by
non-whitespace characters (the `/pat\S*$/` test)? -/
def urlTailMatch (pat : List Char) : List Char → Bool
  | [] => pat.isPrefixOf ([] : List Char) &&
      (([] : List Char).drop pat.length).all (fun c => !c.isWhitespace)
  | c :: rest =>
      (pat.isPrefixOf (c :: rest) &&
        ((c :: rest).drop pat.length).all (fun c => !c.isWhitespace)) ||
      urlTailMatch pat rest

/-- Number of leading ASCII letters (the greedy `^[a-zA-Z]{0,…}` match). -/
def leadingLetterCount : List Char → Nat
  | c :: rest => if c.isAlpha then leadingLetterCount rest + 1 else 0
  | [] => 0

/-- `/^[a-zA-Z]{2,4}(\s|$)/.test(afterText)` (with regex backtracking:
some `k ∈ {2,3,4}` letters followed by whitespace or the end). -/
def extWindowMatches (after : List Char) : Bool :=
  [2, 3, 4].any fun k =>
    decide (k ≤ leadingLetterCount after) &&
      (after.length == k || (decide (k < after.length) && (jsCharAt after k).isWhitespace))

/-- `isUrlOrPath(text, periodIndex)`. -/
def isUrlOrPath (cs : List Char) (i : Nat) : Bool :=
  let beforeText := jsSlice cs (i - 50) i
  if urlTailMatch "http://".toList beforeText || urlTailMatch "https://".toList beforeText then
    true
  else if urlTailMatch "www.".toList beforeText then true
  else
    let afterText := jsSlice cs (i + 1) (i + 6)
    if extWindowMatches afterText then
      -- `afterText.match(/^[a-zA-Z]{2,4}/)` is greedy: min(leading letters, 4)
      let len := min (leadingLetterCount afterText) 4
      if decide (0 < len) && decide (i + 1 + len < cs.length) then
        !(jsCharAt cs (i + 1 + len)).isWhitespace
      else false
    else false

/-- `/[A-Z"'([]/` — characters that may open a new sentence (39 is the
apostrophe). -/
def boundaryNextChar (c : Char) : Bool :=
  c.isUpper || c == '"' || c == Char.ofNat 39 || c == '(' || c == '['

/-- `/["')\]]/` — closing quote / bracket allowed directly after the
terminator. -/
def closingQuoteChar (c : Char) : Bool :=
  c == '"' || c == Char.ofNat 39 || c == ')' || c == ']'

/-- First non-whitespace index at or after `start`. -/
def nextNonSpaceFrom (cs : List Char) (start : Nat) : Option Nat :=
  match (cs.drop start).findIdx? (fun c => !c.isWhitespace) with
  | none => none
  | some k => some (start + k)

/-- `isValidBoundary(text, terminatorIndex)`. -/
def isValidBoundary (cs : List Char) (ti : Nat) : Bool :=
  let afterIndex := ti + 1
  if afterIndex ≥ cs.length then false
  else if !(jsCharAt cs afterIndex).isWhitespace then
    if closingQuoteChar (jsCharAt cs afterIndex) then
      afterIndex + 1 < cs.length && (jsCharAt cs (afterIndex + 1)).isWhitespace
    else false
  else
    match nextNonSpaceFrom cs (afterIndex + 1) with
    | none => false
    | some idx => boundaryNextChar (jsCharAt cs idx)

/-- First terminator (`.`, `!` or `?`) index at or after `i`. -/
def findTermFrom (cs : List Char) (i : Nat) : Option Nat :=
  match (cs.drop i).findIdx? (fun c => c == '.' || c == '!' || c == '?') with
  | none => none
  | some k => some (i + k)

/-- The `while ((match = terminators.exec(cleaned)) !== null)` loop of
`extractSentences`.  Arguments: fuel, regex cursor (`lastIndex`),
`lastSentenceEnd`, accumulated sentences.  Returns the sentences and the
final `lastSentenceEnd`.  The cursor strictly increases each iteration,
so fuel `cleaned.length + 1` is never exhausted. -/
def extractLoop (cleaned : List Char) :
    Nat → Nat → Nat → List (List Char) → List (List Char) × Nat
  | 0, _, lastEnd, acc => (acc, lastEnd)
  | fuel + 1, lastIndex, lastEnd, acc =>
    match findTermFrom cleaned lastIndex with
    | none => (acc, lastEnd)
    | some index =>
      let terminator := jsCharAt cleaned index
      if terminator == '.' && jsSlice cleaned index (index + 3) == ['.', '.', '.'] then
        -- ellipsis: boundary only when followed by space then capital/quote/bracket
        if isValidBoundary cleaned (index + 2) then
          let sentence := jsTrim (jsSlice cleaned lastEnd (index + 3))
          if sentence.length > 0 then
            extractLoop cleaned fuel (index + 3) (index + 3) (acc ++ [sentence])
          else extractLoop cleaned fuel (index + 3) lastEnd acc
        else extractLoop cleaned fuel (index + 3) lastEnd acc
      else if terminator == '.' &&
          (isAbbreviation cleaned index || isDecimalNumber cleaned index ||
            isUrlOrPath cleaned index) then
        extractLoop cleaned fuel (index + 1) lastEnd acc
      else if isValidBoundary cleaned index then
        let sentence := jsTrim (jsSlice cleaned lastEnd (index + 1))
        if sentence.length > 0 then
          extractLoop cleaned fuel (index + 1) (index + 1) (acc ++ [sentence])
        else extractLoop cleaned fuel (index + 1) lastEnd acc
      else extractLoop cleaned fuel (index + 1) lastEnd acc

/-- `extractSentences(text)`: complete sentences plus the remainder.
Note the source slices the remainder out of the ORIGINAL `text` with an
index computed on the CLEANED text. -/
def extractSentences (text : String) : List String × String :=
  let tl := text.toList
  if text.isEmpty || (jsTrim tl).length == 0 then ([], text)
  else
    let stripped := stripCodeBlocks tl
    let cleaned := stripped.1
    if stripped.2 then ([], text)
    else
      let r := extractLoop cleaned (cleaned.length + 1) 0 0 []
      (r.1.map String.mk, String.mk (jsTrim (tl.drop r.2)))

/-- C8: on "Dr. Smith went home. He left at 5.5 miles away." exactly one
sentence is extracted, "Dr. Smith went home.", with the rest as remainder:
the period after "Dr" is suppressed as an abbreviation (index 2), the
period in "5.5" as a decimal (index 33), the period after "home"
(index 19) is a valid boundary (whitespace then a capital), and the final
period (index 46, end of input) is not a boundary. -/
theorem extractSentences_abbrev_decimal_boundary :
    extractSentences "Dr. Smith went home. He left at 5.5 miles away." =
      (["Dr. Smith went home."], "He left at 5.5 miles away.") ∧
    isAbbreviation "Dr. Smith went home. He left at 5.5 miles away.".toList 2 = true ∧
    isDecimalNumber "Dr. Smith went home. He left at 5.5 miles away.".toList 33 = true ∧
    isValidBoundary "Dr. Smith went home. He left at 5.5 miles away.".toList 19 = true ∧
    isValidBoundary "Dr. Smith went home. He left at 5.5 miles away.".toList 46 = false := by
  decide

/-- C10 fails on the code: with a closed code fence before a sentence
boundary, the remainder is sliced out of the ORIGINAL text at an index
computed on the CLEANED text, so the tail "there. Bye" repeats the
"there." that was already emitted inside the sentence "Hi `x` there." —
sentences and remainder overlap instead of partitioning the input. -/
theorem extractSentences_remainder_overlap :
    extractSentences "```a``` Hi `x` there. Bye" =
      (["Hi `x` there."], "there. Bye") := by decide

/-! ## JSON value model

Inbound protocol traffic is parsed JSON (`unknown` in the source); we model
it as a `JsonValue`.  JavaScript `typeof v === "object" && v !== null` is
true for arrays as well, but a JSON array has no string-keyed fields, so
`readObject` maps arrays to the empty field list. -/

inductive JsonValue where
  | null
  | bool (b : Bool)
  | num (n : Int)
  | numNonFinite
  | str (s : String)
  | arr (elems : List JsonValue)
  | obj (fields : List (String × JsonValue))

/-- First-match field lookup (JS object member access; keys are unique in
parsed JSON). `none` models `undefined`. -/
def objGet : List (String × JsonValue) → String → Option JsonValue
  | [], _ => none
  | (k, v) :: rest, key => if k == key then some v else objGet rest key

/-- `readObject` / `isRecord`: any non-null `object` (arrays included, with
no string fields). -/
def readObject : JsonValue → Option (List (String × JsonValue))
  | .obj fields => some fields
  | .arr _ => some []
  | _ => none

/-- `readArray`. -/
def readArray : JsonValue → Option (List JsonValue)
  | .arr elems => some elems
  | _ => none

/-- `readString`: non-empty strings only. -/
def readString : Option JsonValue → Option String
  | some (.str s) => if s.length > 0 then some s else none
  | _ => none

/-- A JSON-RPC id as the source's `readId` classifies it. -/
inductive RpcId where
  | str (s : String)
  | num (n : Int)
deriving DecidableEq, Repr

/-- `readId`: non-empty string ids and finite numeric ids survive, anything
else becomes null. -/
def readId : Option JsonValue → Option RpcId
  | some (.str s) => if s.length > 0 then some (.str s) else none
  | some (.num n) => some (.num n)
  | _ => none

/-- `readMethod`: non-empty strings only. -/
def readMethod : Option JsonValue → Option String
  | some (.str s) => if s.length > 0 then some s else none
  | _ => none

/-- `hasError`: the message has an `error` field (parsed JSON never holds
`undefined`). -/
def hasError (fields : List (String × JsonValue)) : Bool :=
  (objGet fields "error").isSome

/-- `normalizeCwd`. -/
def normalizeCwd : Option String → Option String
  | none => none
  | some s => let t := jsStrTrim s; if t.length > 0 then some t else none

structure AuthMethod where
  id : String
  name : String
  description : String
deriving DecidableEq, Repr

/-- `readAuthMethods`: entries with a valid non-empty `id` survive, `name`
defaults to the id and `description` to the empty string. -/
def readAuthMethods (result : Option JsonValue) : Option (List AuthMethod) :=
  match result.bind readObject with
  | none => none
  | some fields =>
    match (objGet fields "authMethods").bind readArray with
    | none => some []
    | some methods =>
      if methods.length == 0 then some []
      else some (methods.filterMap fun m =>
        match readObject m with
        | none => none
        | some rec =>
          match readString (objGet rec "id") with
          | none => none
          | some id =>
            some { id := id,
                   name := (readString (objGet rec "name")).getD id,
                   description := (readString (objGet rec "description")).getD "" })

structure PermOption where
  kind : String
  name : String
  optionId : String
deriving DecidableEq, Repr

structure PermToolCall where
  toolCallId : String
  rawInput : Option JsonValue
  title : String

/-- `isValidPermissionKind`. -/
def isValidPermissionKind (kind : String) : Bool :=
  kind == "allow_once" || kind == "allow_always" || kind == "reject_once"

/-- `readPermissionOptions`: invalid entries are silently dropped; a null,
empty or all-invalid list yields `none`. -/
def readPermissionOptions (value : Option JsonValue) : Option (List PermOption) :=
  match value.bind readArray with
  | none => none
  | some arr =>
    if arr.length == 0 then none
    else
      let options := arr.filterMap fun item =>
        match readObject item with
        | none => none
        | some rec =>
          match readString (objGet rec "kind"), readString (objGet rec "name"),
              readString (objGet rec "optionId") with
          | some kind, some name, some optionId =>
            if isValidPermissionKind kind then some { kind, name, optionId } else none
          | _, _, _ => none
      if options.length > 0 then some options else none

/-- `readPermissionToolCall`. -/
def readPermissionToolCall (value : Option JsonValue) : Option PermToolCall :=
  match value.bind readObject with
  | none => none
  | some rec =>
    match readString (objGet rec "toolCallId"), readString (objGet rec "title") with
    | some toolCallId, some title =>
      some { toolCallId, rawInput := objGet rec "rawInput", title }
    | _, _ => none

/-! ## Protocol session (agentProtocolSession.ts)

The session is embedded as a pure state machine: each method becomes a
function `PEnv → ProtoState → …` returning the new state together with the
ordered list of observable events (callback invocations and successful
`sendUpstream` deliveries).  The line framing (`JSON.stringify` plus a
trailing newline) is a bijective serialisation irrelevant to the claims, so
`upstreamSent` carries the payload object itself.  `createId` is the
caller-injectable generator, modelled as a function of an invocation
counter; `sendUpstream` may throw, modelled as `send` mapping the index of
the send attempt to success (`true`) or a thrown exception (`false`) —
every call site wraps the send in `try`/`catch` exactly as the source
does. -/

/-- The `AgentRequestType` union (the strings `"initialize"`,
`"authenticate"`, `"session/new"`, `"session/prompt"`). -/
inductive ReqType where
  | rqInit
  | rqAuth
  | rqSessionNew
  | rqSessionPrompt
deriving DecidableEq, Repr

structure PendingPrompt (μ : Type) where
  requestId : String
  text : String
  metadata : μ
deriving DecidableEq, Repr

/-- Observable events of a protocol-session call, in invocation order. -/
inductive PEvent (μ : Type) where
  | upstreamSent (payload : JsonValue)
  | requestDispatched (type : ReqType) (requestId : String)
  | responseReceived (type : ReqType) (requestId : String)
  | initializeError
  | sessionReady (sessionId : String)
  | sessionError
  | authenticationRequired (id name description : String)
  | promptQueued (requestId text : String) (metadata : μ)
  | promptSent (requestId text : String) (metadata : μ)
  | promptResult (requestId : String) (result : JsonValue) (metadata : μ)
  | promptError (requestId : String) (error : Option JsonValue) (metadata : μ)
  | sessionUpdate (sessionId : Option String) (update : JsonValue)
  | permissionRequest (requestId : Int) (sessionId : String)
      (options : List PermOption) (toolCall : PermToolCall)

/-- Constructor options of `AgentProtocolSession` (the callbacks are the
event list instead). -/
structure PEnv (μ : Type) where
  createId : Nat → String
  send : Nat → Bool
  initialPermissionMode : String
  sessionCwd : Option String := none
  resumeSessionId : Option String := none

/-- Mutable fields of `AgentProtocolSession`, plus the two counters backing
the modelled `createId` and `sendUpstream`. -/
structure ProtoState (μ : Type) where
  started : Bool := false
  initializationComplete : Bool := false
  sessionId : Option String := none
  initializeRequestId : Option String := none
  authenticateRequestId : Option String := none
  sessionRequestId : Option String := none
  queuedPrompts : List (PendingPrompt μ) := []
  pendingPrompts : List (String × PendingPrompt μ) := []
  ctr : Nat := 0
  sends : Nat := 0

/-- A fresh session. -/
def ProtoState.init {μ : Type} : ProtoState μ := {}

/-- JS `Map.get` (keys unique, first match). -/
def mapGet {α : Type} : List (String × α) → String → Option α
  | [], _ => none
  | (k, v) :: rest, key => if k == key then some v else mapGet rest key

/-- JS `Map.set`. -/
def mapSet {α : Type} : List (String × α) → String → α → List (String × α)
  | [], key, v => [(key, v)]
  | (k, w) :: rest, key, v =>
    if k == key then (key, v) :: rest else (k, w) :: mapSet rest key v

/-- JS `Map.delete`. -/
def mapDelete {α : Type} : List (String × α) → String → List (String × α)
  | [], _ => []
  | (k, w) :: rest, key => if k == key then rest else (k, w) :: mapDelete rest key

/-- `this.sendUpstream(framePayload(payload))` inside a `try`: consumes one
send slot, and either delivers (an `upstreamSent` event) or throws. -/
def trySend {μ : Type} (env : PEnv μ) (s : ProtoState μ) (payload : JsonValue) :
    ProtoState μ × List (PEvent μ) × Bool :=
  let n := s.sends
  let s := { s with sends := n + 1 }
  if env.send n then (s, [.upstreamSent payload], true) else (s, [], false)

/-- The `initialize` request payload. -/
def initPayload (requestId : String) : JsonValue :=
  .obj [("jsonrpc", .str "2.0"), ("id", .str requestId),
        ("method", .str "initialize"),
        ("params", .obj [("protocolVersion", .num 1),
                         ("clientCapabilities", .obj [])])]

/-- The `authenticate` request payload. -/
def authPayload (requestId methodId : String) : JsonValue :=
  .obj [("jsonrpc", .str "2.0"), ("id", .str requestId),
        ("method", .str "authenticate"),
        ("params", .obj [("methodId", .str methodId)])]

/-- The `session/new` request payload (`_meta` carries the permission mode
and, when resuming, the Claude Code resume options). -/
def sessionNewPayload {μ : Type} (env : PEnv μ) (requestId : String) : JsonValue :=
  let meta : List (String × JsonValue) :=
    ("permissionMode", .str env.initialPermissionMode) ::
      (match normalizeCwd env.resumeSessionId with
       | some r => [("claudeCode", .obj [("options", .obj [("resume", .str r)])])]
       | none => [])
  .obj [("jsonrpc", .str "2.0"), ("id", .str requestId),
        ("method", .str "session/new"),
        ("params", .obj [("cwd", .str ((normalizeCwd env.sessionCwd).getD "/")),
                         ("mcpServers", .arr []),
                         ("_meta", .obj meta)])]

/-- The `session/prompt` request payload. -/
def promptPayload {μ : Type} (sessionId : String) (prompt : PendingPrompt μ) : JsonValue :=
  .obj [("jsonrpc", .str "2.0"), ("id", .str prompt.requestId),
        ("method", .str "session/prompt"),
        ("params", .obj [("sessionId", .str sessionId),
                         ("prompt", .arr [.obj [("type", .str "text"),
                                                ("text", .str prompt.text)]])])]

/-- `dispatchRequest`: announce, then send; on a thrown send surface
`onInitializeError` for `initialize` and `onSessionError` for
`session/new` (other request types surface nothing here). -/
def dispatchRequest {μ : Type} (env : PEnv μ) (s : ProtoState μ) (type : ReqType)
    (payload : JsonValue) (requestId : String) :
    ProtoState μ × List (PEvent μ) × Bool :=
  let ev0 : List (PEvent μ) := [.requestDispatched type requestId]
  let r := trySend env s payload
  if r.2.2 then (r.1, ev0 ++ r.2.1, true)
  else
    let evErr : List (PEvent μ) :=
      match type with
      | .rqInit => [.initializeError]
      | .rqSessionNew => [.sessionError]
      | _ => []
    (r.1, ev0 ++ evErr, false)

/-- `dispatchInitialize`. -/
def dispatchInit {μ : Type} (env : PEnv μ) (s : ProtoState μ) :
    ProtoState μ × List (PEvent μ) :=
  let requestId := "init-" ++ env.createId s.ctr
  let s := { s with ctr := s.ctr + 1, initializeRequestId := some requestId }
  let r := dispatchRequest env s .rqInit (initPayload requestId) requestId
  (r.1, r.2.1)

/-- `start()`: idempotent. -/
def protoStart {μ : Type} (env : PEnv μ) (s : ProtoState μ) :
    ProtoState μ × List (PEvent μ) :=
  if s.started then (s, [])
  else dispatchInit env { s with started := true }

/-- `dispatchAuthenticate`. -/
def dispatchAuth {μ : Type} (env : PEnv μ) (s : ProtoState μ) (methodId : String) :
    ProtoState μ × List (PEvent μ) :=
  let requestId := "auth-" ++ env.createId s.ctr
  let s := { s with ctr := s.ctr + 1, authenticateRequestId := some requestId }
  let r := dispatchRequest env s .rqAuth (authPayload requestId methodId) requestId
  (r.1, r.2.1)

/-- `dispatchSessionNew`. -/
def dispatchSessionNew {μ : Type} (env : PEnv μ) (s : ProtoState μ) :
    ProtoState μ × List (PEvent μ) :=
  let requestId := "session-" ++ env.createId s.ctr
  let s := { s with ctr := s.ctr + 1, sessionRequestId := some requestId }
  let r := dispatchRequest env s .rqSessionNew (sessionNewPayload env requestId) requestId
  (r.1, r.2.1)

/-- `dispatchPrompt`: re-queue without a session; otherwise send, and on a
thrown send fire `onPromptError` without registering the prompt. -/
def dispatchPrompt {μ : Type} (env : PEnv μ) (s : ProtoState μ) (prompt : PendingPrompt μ) :
    ProtoState μ × List (PEvent μ) :=
  match s.sessionId with
  | none => ({ s with queuedPrompts := s.queuedPrompts ++ [prompt] }, [])
  | some sessionId =>
    let payload := promptPayload sessionId prompt
    let r := dispatchRequest env s .rqSessionPrompt payload prompt.requestId
    if !r.2.2 then
      (r.1, r.2.1 ++ [.promptError prompt.requestId none prompt.metadata])
    else
      ({ r.1 with pendingPrompts := mapSet r.1.pendingPrompts prompt.requestId prompt },
       r.2.1 ++ [.promptSent prompt.requestId prompt.text prompt.metadata])

/-- The body of the `while (queuedPrompts.length > 0)` loop of
`flushQueuedPrompts`: shift and dispatch each queued prompt in order.
(The loop runs only with a session id set, in which case `dispatchPrompt`
never re-queues, so iterating over the drained queue is exact.) -/
def flushLoop {μ : Type} (env : PEnv μ) : List (PendingPrompt μ) → ProtoState μ →
    ProtoState μ × List (PEvent μ)
  | [], s => (s, [])
  | prompt :: rest, s =>
    let r := dispatchPrompt env s prompt
    let r2 := flushLoop env rest r.1
    (r2.1, r.2 ++ r2.2)

/-- `flushQueuedPrompts`. -/
def flushQueuedPrompts {μ : Type} (env : PEnv μ) (s : ProtoState μ) :
    ProtoState μ × List (PEvent μ) :=
  match s.sessionId with
  | none => (s, [])
  | some _ => flushLoop env s.queuedPrompts { s with queuedPrompts := [] }

/-- `sendPrompt(text, metadata)`: returns the allocated request id (or
`null` for blank text). -/
def protoSendPrompt {μ : Type} (env : PEnv μ) (s : ProtoState μ) (text : String)
    (metadata : μ) : ProtoState μ × List (PEvent μ) × Option String :=
  let trimmed := jsStrTrim text
  if trimmed.length == 0 then (s, [], none)
  else
    let requestId := "prompt-" ++ env.createId s.ctr
    let s := { s with ctr := s.ctr + 1 }
    let prompt : PendingPrompt μ := { requestId, text := trimmed, metadata }
    if !s.initializationComplete || s.sessionId.isNone then
      let s := { s with queuedPrompts := s.queuedPrompts ++ [prompt] }
      let r := protoStart env s
      (r.1, .promptQueued requestId trimmed metadata :: r.2, some requestId)
    else
      let r := dispatchPrompt env s prompt
      (r.1, r.2, some requestId)

/-- `handleResponseMessage(identifier, payload)`: match the string id
against the three handshake slots and then the pending-prompt table, in
that priority order. -/
def handleResponseMessage {μ : Type} (env : PEnv μ) (s : ProtoState μ)
    (identifier : String) (fields : List (String × JsonValue)) :
    ProtoState μ × List (PEvent μ) × Bool :=
  if some identifier == s.initializeRequestId then
    let ev0 : List (PEvent μ) := [.responseReceived .rqInit identifier]
    if hasError fields then (s, ev0 ++ [.initializeError], true)
    else
      let s := { s with initializationComplete := true }
      let authMethods := readAuthMethods (objGet fields "result")
      let authMethodIds := (authMethods.map (·.map (·.id))).getD []
      if authMethodIds.contains "gemini-api-key" then
        let r := dispatchAuth env s "gemini-api-key"
        (r.1, ev0 ++ r.2, true)
      else if authMethodIds.contains "opencode-login" then
        match (authMethods.getD []).find? (·.id == "opencode-login") with
        | some m =>
          (s, ev0 ++ [.authenticationRequired m.id m.name m.description], true)
        | none => (s, ev0, true)
      else
        let r := dispatchSessionNew env s
        (r.1, ev0 ++ r.2, true)
  else if some identifier == s.authenticateRequestId then
    let ev0 : List (PEvent μ) := [.responseReceived .rqAuth identifier]
    if hasError fields then (s, ev0 ++ [.sessionError], true)
    else
      let r := dispatchSessionNew env s
      (r.1, ev0 ++ r.2, true)
  else if some identifier == s.sessionRequestId then
    let ev0 : List (PEvent μ) := [.responseReceived .rqSessionNew identifier]
    if hasError fields then (s, ev0 ++ [.sessionError], true)
    else
      match (objGet fields "result").bind readObject with
      | none => (s, ev0 ++ [.sessionError], true)
      | some result =>
        match objGet result "sessionId" with
        | some (.str sessionIdentifier) =>
          if sessionIdentifier.length == 0 then (s, ev0 ++ [.sessionError], true)
          else
            let s := { s with sessionId := some sessionIdentifier }
            let r := flushQueuedPrompts env s
            (r.1, ev0 ++ [.sessionReady sessionIdentifier] ++ r.2, true)
        | _ => (s, ev0 ++ [.sessionError], true)
  else
    match mapGet s.pendingPrompts identifier with
    | none => (s, [], false)
    | some prompt =>
      let ev0 : List (PEvent μ) := [.responseReceived .rqSessionPrompt identifier]
      let s := { s with pendingPrompts := mapDelete s.pendingPrompts identifier }
      if hasError fields then
        (s, ev0 ++ [.promptError identifier (objGet fields "error") prompt.metadata], true)
      else
        let result := ((objGet fields "result").bind readObject).getD []
        (s, ev0 ++ [.promptResult identifier (.obj result) prompt.metadata], true)

/-- `handleAgentRequest(requestId, method, payload)`: only
`session/request_permission` is recognised, with full params validation. -/
def handleAgentRequest {μ : Type} (_env : PEnv μ) (s : ProtoState μ)
    (requestId : Int) (method : String) (fields : List (String × JsonValue)) :
    ProtoState μ × List (PEvent μ) × Bool :=
  if method == "session/request_permission" then
    match (objGet fields "params").bind readObject with
    | none => (s, [], false)
    | some params =>
      match readString (objGet params "sessionId"),
          readPermissionOptions (objGet params "options"),
          readPermissionToolCall (objGet params "toolCall") with
      | some sessionId, some options, some toolCall =>
        (s, [.permissionRequest requestId sessionId options toolCall], true)
      | _, _, _ => (s, [], false)
  else (s, [], false)

/-- `handleAgentMessage(payload)`: the single entry point for inbound
traffic.  Numeric id + method → peer request; string id → response; method
only → notification (only `session/update` recognised); otherwise
unhandled. -/
def protoHandleAgentMessage {μ : Type} (env : PEnv μ) (s : ProtoState μ)
    (payload : JsonValue) : ProtoState μ × List (PEvent μ) × Bool :=
  match readObject payload with
  | none => (s, [], false)
  | some fields =>
    let identifier := readId (objGet fields "id")
    let method := readMethod (objGet fields "method")
    match identifier, method with
    | some (.num n), some m => handleAgentRequest env s n m fields
    | some (.str sid), _ => handleResponseMessage env s sid fields
    | _, none => (s, [], false)
    | _, some m =>
      if m == "session/update" then
        match (objGet fields "params").bind readObject with
        | none => (s, [], false)
        | some params =>
          match objGet params "update" with
          | none => (s, [], false)
          | some u =>
            match readObject u with
            | none => (s, [], false)
            | some _ =>
              (s, [.sessionUpdate (readString (objGet params "sessionId")) u], true)
      else (s, [], false)

/-- The `session/set_mode` payload. -/
def setModePayload (sessionId requestId modeId : String) : JsonValue :=
  .obj [("jsonrpc", .str "2.0"), ("id", .str requestId),
        ("method", .str "session/set_mode"),
        ("params", .obj [("sessionId", .str sessionId), ("modeId", .str modeId)])]

/-- `setMode(modeId)`: requires an active session; fire-and-forget. -/
def protoSetMode {μ : Type} (env : PEnv μ) (s : ProtoState μ) (modeId : String) :
    ProtoState μ × List (PEvent μ) × Bool :=
  match s.sessionId with
  | none => (s, [], false)
  | some sessionId =>
    let requestId := "setmode-" ++ env.createId s.ctr
    let s := { s with ctr := s.ctr + 1 }
    trySend env s (setModePayload sessionId requestId modeId)

/-- The `session/cancel` notification payload (no `id` field). -/
def cancelPayload (sessionId : String) : JsonValue :=
  .obj [("jsonrpc", .str "2.0"), ("method", .str "session/cancel"),
        ("params", .obj [("sessionId", .str sessionId)])]

/-- `cancelCurrentPrompt()`. -/
def protoCancelCurrentPrompt {μ : Type} (env : PEnv μ) (s : ProtoState μ) :
    ProtoState μ × List (PEvent μ) × Bool :=
  match s.sessionId with
  | none => (s, [], false)
  | some sessionId => trySend env s (cancelPayload sessionId)

/-- `respondToPermissionRequest(requestId, outcome)`: outcome is either
`{outcome:"selected", optionId}` or `{outcome:"cancelled"}`. -/
def permissionOutcomePayload (requestId : Int) (outcome : String)
    (optionId : Option String) : JsonValue :=
  .obj [("jsonrpc", .str "2.0"), ("id", .num requestId),
        ("result", .obj [("outcome",
          .obj (("outcome", JsonValue.str outcome) ::
            (match optionId with
             | some o => [("optionId", JsonValue.str o)]
             | none => [])))])]

/-- `respondToPermissionRequest`. -/
def respondToPermissionRequest {μ : Type} (env : PEnv μ) (s : ProtoState μ)
    (requestId : Int) (outcome : String) (optionId : Option String) :
    ProtoState μ × List (PEvent μ) × Bool :=
  trySend env s (permissionOutcomePayload requestId outcome optionId)

/-- The ordered `(type, requestId)` trace of `onRequestDispatched`
invocations in an event list. -/
def reqTrace {μ : Type} : List (PEvent μ) → List (ReqType × String)
  | [] => []
  | .requestDispatched t requestId :: rest => (t, requestId) :: reqTrace rest
  | _ :: rest => reqTrace rest

/-- The `method` field of an outbound frame. -/
def payloadMethod (p : JsonValue) : Option String :=
  match readObject p with
  | some fields => readMethod (objGet fields "method")
  | none => none

/-- The ordered list of methods actually delivered through `sendUpstream`. -/
def sentMethods {μ : Type} (evs : List (PEvent μ)) : List (Option String) :=
  evs.filterMap fun e =>
    match e with
    | .upstreamSent p => some (payloadMethod p)
    | _ => none

/-- Drive a protocol session through a list of operations, accumulating
the full event trace. -/
inductive POp (μ : Type) where
  | start
  | sendPrompt (text : String) (metadata : μ)
  | deliver (msg : JsonValue)

def runPOp {μ : Type} (env : PEnv μ) (s : ProtoState μ) :
    POp μ → ProtoState μ × List (PEvent μ)
  | .start => protoStart env s
  | .sendPrompt text metadata =>
    let r := protoSendPrompt env s text metadata
    (r.1, r.2.1)
  | .deliver msg =>
    let r := protoHandleAgentMessage env s msg
    (r.1, r.2.1)

def runPOps {μ : Type} (env : PEnv μ) : ProtoState μ → List (POp μ) →
    ProtoState μ × List (PEvent μ)
  | s, [] => (s, [])
  | s, op :: rest =>
    let r := runPOp env s op
    let r2 := runPOps env r.1 rest
    (r2.1, r.2 ++ r2.2)

/-- A convenient always-delivering environment with a deterministic id
generator (used for concrete runs). -/
def okEnv : PEnv JsonValue :=
  { createId := fun n => toString n
    send := fun _ => true
    initialPermissionMode := "default" }

example :
    sentMethods (runPOps okEnv .init
      [.start,
       .deliver (.obj [("jsonrpc", .str "2.0"), ("id", .str "init-0"),
                       ("result", .obj [("protocolVersion", .num 1)])])]).2 =
      [some "initialize", some "session/new"] := by decide

/-! ## C1: inbound message classification -/

/-- C1: `handleAgentMessage` classifies every inbound object by id type: a
finite numeric id (including 0) together with a non-empty string method is
dispatched as a peer-initiated request; a non-empty string id is routed as
a response, returning `false` (with no state change and no callback) when
it matches none of the request-id slots nor a pending prompt; in
particular a string-id `session/request_permission` message matching no
slot returns `false` and never invokes `onPermissionRequest`. -/
theorem handleAgentMessage_id_classification
    (env : PEnv JsonValue) (s : ProtoState JsonValue)
    (fields : List (String × JsonValue)) :
    (∀ n m, readId (objGet fields "id") = some (.num n) →
      readMethod (objGet fields "method") = some m →
      protoHandleAgentMessage env s (.obj fields) = handleAgentRequest env s n m fields) ∧
    (∀ sid, readId (objGet fields "id") = some (.str sid) →
      some sid ≠ s.initializeRequestId →
      some sid ≠ s.authenticateRequestId →
      some sid ≠ s.sessionRequestId →
      mapGet s.pendingPrompts sid = none →
      protoHandleAgentMessage env s (.obj fields) = (s, [], false)) ∧
    (∀ sid, readId (objGet fields "id") = some (.str sid) →
      readMethod (objGet fields "method") = some "session/request_permission" →
      some sid ≠ s.initializeRequestId →
      some sid ≠ s.authenticateRequestId →
      some sid ≠ s.sessionRequestId →
      mapGet s.pendingPrompts sid = none →
      (protoHandleAgentMessage env s (.obj fields)).2.2 = false ∧
      ∀ r sid' opts tc,
        PEvent.permissionRequest r sid' opts tc ∉ (protoHandleAgentMessage env s (.obj fields)).2.1) := by
  refine ⟨?_, ?_, ?_⟩
  · intro n m hid hm
    simp [protoHandleAgentMessage, readObject, hid, hm]
  · intro sid hid h1 h2 h3 hpp
    simp [protoHandleAgentMessage, readObject, hid, handleResponseMessage,
      h1, h2, h3, hpp]
  · intro sid hid hm h1 h2 h3 hpp
    refine ⟨?_, ?_⟩
    · simp [protoHandleAgentMessage, readObject, hid, handleResponseMessage,
        h1, h2, h3, hpp]
    · intro r sid' opts tc
      simp [protoHandleAgentMessage, readObject, hid, handleResponseMessage,
        h1, h2, h3, hpp]

/-- Witness for C1 at concrete inputs: `{id: 0, method: "x"}` is classified
as a peer request, and `{id: "req-123", method: "session/request_permission"}`
against a fresh session returns `false` with no permission callback. -/
theorem handleAgentMessage_id_classification_witness :
    protoHandleAgentMessage okEnv .init
        (.obj [("id", .num 0), ("method", .str "x")]) =
      handleAgentRequest okEnv .init 0 "x" [("id", .num 0), ("method", .str "x")] ∧
    protoHandleAgentMessage okEnv .init
        (.obj [("id", .str "req-123"), ("method", .str "session/request_permission")]) =
      (.init, [], false) := by
  refine ⟨?_, ?_⟩
  · exact (handleAgentMessage_id_classification okEnv .init
      [("id", .num 0), ("method", .str "x")]).1 0 "x" (by decide) (by decide)
  · exact (handleAgentMessage_id_classification okEnv .init
      [("id", .str "req-123"), ("method", .str "session/request_permission")]).2.1
      "req-123" (by decide) (by decide) (by decide) (by decide) rfl

/-! ## C4: transport failures during outbound dispatch -/

/-- An environment whose second `sendUpstream` call (index 1) throws. -/
def failSecondSendEnv : PEnv Unit :=
  { createId := fun n => toString n
    send := fun n => !(n == 1)
    initialPermissionMode := "default" }

/-- The `initialize` response advertising the `gemini-api-key` auth
method. -/
def geminiInitResponse : JsonValue :=
  .obj [("jsonrpc", .str "2.0"), ("id", .str "init-0"),
        ("result", .obj [("protocolVersion", .num 1),
          ("authMethods", .arr [.obj [("id", .str "gemini-api-key"),
                                      ("name", .str "Gemini API key"),
                                      ("description", .str "")]])])]

/-- Counterexample to C4 as stated: when `sendUpstream` throws while
dispatching `authenticate`, NO callback fires — in particular
`onSessionError` does not (the `catch` in `dispatchRequest` only surfaces
`initialize` and `session/new` failures).  The run below dispatches
`initialize` (send ok), receives the gemini-flavoured response, dispatches
`authenticate` (send throws): exactly one `authenticate` dispatch happens
and zero error callbacks of any kind fire. -/
theorem sendFailure_authenticate_not_surfaced :
    (runPOps failSecondSendEnv .init [.start, .deliver geminiInitResponse]).2.countP
        (fun e => match e with
          | .sessionError => true
          | .initializeError => true
          | .promptError _ _ _ => true
          | _ => false) = 0 ∧
    (runPOps failSecondSendEnv .init [.start, .deliver geminiInitResponse]).2.countP
        (fun e => match e with
          | .requestDispatched .rqAuth _ => true
          | _ => false) = 1 := by
  constructor <;> rfl

/-- C4 (amended): a throwing `sendUpstream` during a dispatch is always
caught (the operations return normally), and is surfaced as follows:
`onInitializeError` for `initialize`, `onSessionError` for `session/new`,
for a prompt `onPromptError` fires synchronously and the prompt is NOT
registered in `pendingPrompts`; a throwing send during `authenticate` is
caught but surfaced through no callback at all. -/
theorem sendFailure_surfacing {μ : Type} (env : PEnv μ) (s : ProtoState μ)
    (payload : JsonValue) (requestId : String)
    (hfail : env.send s.sends = false) :
    dispatchRequest env s .rqInit payload requestId =
      ({ s with sends := s.sends + 1 },
        [.requestDispatched .rqInit requestId, .initializeError], false) ∧
    dispatchRequest env s .rqSessionNew payload requestId =
      ({ s with sends := s.sends + 1 },
        [.requestDispatched .rqSessionNew requestId, .sessionError], false) ∧
    dispatchRequest env s .rqAuth payload requestId =
      ({ s with sends := s.sends + 1 },
        [.requestDispatched .rqAuth requestId], false) ∧
    (∀ (prompt : PendingPrompt μ) (sessionId : String),
      s.sessionId = some sessionId →
      dispatchPrompt env s prompt =
        ({ s with sends := s.sends + 1 },
          [.requestDispatched .rqSessionPrompt prompt.requestId,
           .promptError prompt.requestId none prompt.metadata])) := by
  refine ⟨?_, ?_, ?_, ?_⟩
  · simp [dispatchRequest, trySend, hfail]
  · simp [dispatchRequest, trySend, hfail]
  · simp [dispatchRequest, trySend, hfail]
  · intro prompt sessionId hsid
    simp [dispatchPrompt, hsid, dispatchRequest, trySend, hfail]

/-- Witness for C4 (amended) at a concrete failing send: all four phases
behave as stated on a fresh-but-session-ready state whose next send
throws. -/
theorem sendFailure_surfacing_witness :
    (let env : PEnv Unit := { createId := fun n => toString n,
                              send := fun _ => false,
                              initialPermissionMode := "default" }
     let s : ProtoState Unit := { sessionId := some "sess-1" }
     dispatchRequest env s .rqAuth (initPayload "r") "r" =
       ({ s with sends := 1 }, [.requestDispatched .rqAuth "r"], false) ∧
     dispatchPrompt env s { requestId := "prompt-0", text := "hi", metadata := () } =
       ({ s with sends := 1 },
        [.requestDispatched .rqSessionPrompt "prompt-0",
         .promptError "prompt-0" none ()])) := by
  refine ⟨(sendFailure_surfacing _ _ (initPayload "r") "r" rfl).2.2.1, ?_⟩
  exact (sendFailure_surfacing _ _ (initPayload "r") "r" rfl).2.2.2
    { requestId := "prompt-0", text := "hi", metadata := () } "sess-1" rfl

/-! ## C2: handshake and queue-flush ordering -/

/-- `runPOps` distributes over concatenation of operation lists. -/
theorem runPOps_append {μ : Type} (env : PEnv μ) (s : ProtoState μ)
    (l1 l2 : List (POp μ)) :
    runPOps env s (l1 ++ l2) =
      ((runPOps env (runPOps env s l1).1 l2).1,
        (runPOps env s l1).2 ++ (runPOps env (runPOps env s l1).1 l2).2) := by
  induction l1 generalizing s with
  | nil => simp [runPOps]
  | cons op rest ih => simp [runPOps, ih]

/-- A nonempty string has positive length. -/
theorem str_length_pos_of_ne (s : String) (h : s ≠ "") : 0 < s.length := by
  cases s with
  | mk data =>
    cases data with
    | nil => exact absurd rfl h
    | cons c cs => simp [String.length]

/-- A string with a nonempty literal prefix is nonempty. -/
theorem prefixed_length_pos (p x : String) (hp : 0 < p.length) :
    0 < (p ++ x).length := by
  simp [String.length_append]
  omega

/-- Request ids carrying different literal prefixes never collide
(`auth-` vs `init-`). -/
theorem authId_ne_initId (a b : String) : ("auth-" ++ a) ≠ "init-" ++ b := by
  intro h
  have hd := congrArg String.data h
  rw [String.data_append, String.data_append] at hd
  have h1 : ("auth-" : String).data = ['a', 'u', 't', 'h', '-'] := rfl
  have h2 : ("init-" : String).data = ['i', 'n', 'i', 't', '-'] := rfl
  rw [h1, h2] at hd
  simp at hd

/-- `session-` vs `init-` ids never collide. -/
theorem sessionId_ne_initId (a b : String) : ("session-" ++ a) ≠ "init-" ++ b := by
  intro h
  have hd := congrArg String.data h
  rw [String.data_append, String.data_append] at hd
  have h1 : ("session-" : String).data = ['s', 'e', 's', 's', 'i', 'o', 'n', '-'] := rfl
  have h2 : ("init-" : String).data = ['i', 'n', 'i', 't', '-'] := rfl
  rw [h1, h2] at hd
  simp at hd

/-- `session-` vs `auth-` ids never collide. -/
theorem sessionId_ne_authId (a b : String) : ("session-" ++ a) ≠ "auth-" ++ b := by
  intro h
  have hd := congrArg String.data h
  rw [String.data_append, String.data_append] at hd
  have h1 : ("session-" : String).data = ['s', 'e', 's', 's', 'i', 'o', 'n', '-'] := rfl
  have h2 : ("auth-" : String).data = ['a', 'u', 't', 'h', '-'] := rfl
  rw [h1, h2] at hd
  simp at hd

/-- The queued prompts produced by submitting `texts` starting at counter
value `c`. -/
def mkPrompts (env : PEnv Unit) : Nat → List String → List (PendingPrompt Unit)
  | _, [] => []
  | c, t :: rest =>
    { requestId := "prompt-" ++ env.createId c, text := jsStrTrim t, metadata := () } ::
      mkPrompts env (c + 1) rest

/-- The `onPromptQueued` events of the queueing phase. -/
def queueEvents (env : PEnv Unit) : Nat → List String → List (PEvent Unit)
  | _, [] => []
  | c, t :: rest =>
    .promptQueued ("prompt-" ++ env.createId c) (jsStrTrim t) () :: queueEvents env (c + 1) rest

/-- Submitting prompts on a started, not-yet-initialised session only
queues them, in submission order, consuming one id per prompt. -/
theorem runQueuePhase (env : PEnv Unit) (texts : List String)
    (htexts : ∀ t ∈ texts, jsStrTrim t ≠ "") :
    ∀ s : ProtoState Unit, s.started = true → s.initializationComplete = false →
    runPOps env s (texts.map fun t => POp.sendPrompt t ()) =
      ({ s with queuedPrompts := s.queuedPrompts ++ mkPrompts env s.ctr texts,
                ctr := s.ctr + texts.length },
        queueEvents env s.ctr texts) := by
  induction texts with
  | nil => intro s _ _; simp [runPOps, mkPrompts, queueEvents]
  | cons t rest ih =>
    intro s hst hic
    have ht : jsStrTrim t ≠ "" := htexts t (by simp)
    have htl : ((jsStrTrim t).length == 0) = false := by
      simp only [beq_eq_false_iff_ne]
      intro hl
      exact absurd (Nat.lt_irrefl 0 (hl ▸ str_length_pos_of_ne (jsStrTrim t) ht)) (fun h => h)
    simp only [List.map_cons, runPOps, runPOp, protoSendPrompt, htl, hic,
      Bool.not_false, Bool.true_or, if_false, protoStart, hst, if_true]
    rw [ih (fun u hu => htexts u (by simp [hu])) _ (by simp [hst]) (by simp [hic])]
    simp [mkPrompts, queueEvents, List.append_assoc]
    omega

/-- The events of flushing a prompt queue against session `sid` with a
fully reliable transport: each prompt is announced, sent and reported, in
queue order. -/
def flushEvents (sid : String) : List (PendingPrompt Unit) → List (PEvent Unit)
  | [] => []
  | p :: rest =>
    .requestDispatched .rqSessionPrompt p.requestId ::
    .upstreamSent (promptPayload sid p) ::
    .promptSent p.requestId p.text () :: flushEvents sid rest

/-- With a session id set and a reliable transport, `flushLoop` dispatches
the drained queue in FIFO order. -/
theorem flushLoop_events (env : PEnv Unit) (hsend : ∀ n, env.send n = true)
    (sid : String) :
    ∀ (q : List (PendingPrompt Unit)) (s : ProtoState Unit),
      s.sessionId = some sid →
      (flushLoop env q s).2 = flushEvents sid q := by
  intro q
  induction q with
  | nil => intro s _; simp [flushLoop, flushEvents]
  | cons p rest ih =>
    intro s hs
    simp only [flushLoop, dispatchPrompt, hs, dispatchRequest, trySend, hsend,
      if_true, flushEvents]
    rw [ih _ (by simp [hs])]
    simp

/-- The first request id of a handshake. -/
def initIdOf (env : PEnv Unit) : String := "init-" ++ env.createId 0

/-- An `initialize` response carrying a caller-chosen `result`. -/
def initResponseMsg (env : PEnv Unit) (result : JsonValue) : JsonValue :=
  .obj [("jsonrpc", .str "2.0"), ("id", .str (initIdOf env)), ("result", result)]

/-- An `authenticate` success response for the id allocated at counter
value `c`. -/
def authResponseMsg (env : PEnv Unit) (c : Nat) : JsonValue :=
  .obj [("jsonrpc", .str "2.0"), ("id", .str ("auth-" ++ env.createId c)),
        ("result", .obj [])]

/-- A `session/new` success response for the id allocated at counter value
`c`, carrying session id `sid`. -/
def sessionNewResponseMsg (env : PEnv Unit) (c : Nat) (sid : String) : JsonValue :=
  .obj [("jsonrpc", .str "2.0"), ("id", .str ("session-" ++ env.createId c)),
        ("result", .obj [("sessionId", .str sid)])]

/-- The texts of the prompts reported sent (`onPromptSent`), in order. -/
def sentPromptTexts {μ : Type} : List (PEvent μ) → List String
  | [] => []
  | .promptSent _ text _ :: rest => text :: sentPromptTexts rest
  | _ :: rest => sentPromptTexts rest

theorem reqTrace_append {μ : Type} (l1 l2 : List (PEvent μ)) :
    reqTrace (l1 ++ l2) = reqTrace l1 ++ reqTrace l2 := by
  induction l1 with
  | nil => simp [reqTrace]
  | cons e rest ih => cases e <;> simp [reqTrace, ih]

theorem sentPromptTexts_append {μ : Type} (l1 l2 : List (PEvent μ)) :
    sentPromptTexts (l1 ++ l2) = sentPromptTexts l1 ++ sentPromptTexts l2 := by
  induction l1 with
  | nil => simp [sentPromptTexts]
  | cons e rest ih => cases e <;> simp [sentPromptTexts, ih]

theorem reqTrace_queueEvents (env : PEnv Unit) :
    ∀ (c : Nat) (l : List String), reqTrace (queueEvents env c l) = [] := by
  intro c l
  induction l generalizing c with
  | nil => rfl
  | cons t rest ih => simp [queueEvents, reqTrace] at ih ⊢; exact ih _

theorem sentPromptTexts_queueEvents (env : PEnv Unit) :
    ∀ (c : Nat) (l : List String), sentPromptTexts (queueEvents env c l) = [] := by
  intro c l
  induction l generalizing c with
  | nil => rfl
  | cons t rest ih => simp [queueEvents, sentPromptTexts] at ih ⊢; exact ih _

theorem reqTrace_flushEvents (sid : String) (q : List (PendingPrompt Unit)) :
    reqTrace (flushEvents sid q) =
      q.map fun p => (ReqType.rqSessionPrompt, p.requestId) := by
  induction q with
  | nil => rfl
  | cons p rest ih => simp [flushEvents, reqTrace] at ih ⊢; exact ih

theorem sentPromptTexts_flushEvents (sid : String) (q : List (PendingPrompt Unit)) :
    sentPromptTexts (flushEvents sid q) = q.map (·.text) := by
  induction q with
  | nil => rfl
  | cons p rest ih => simp [flushEvents, sentPromptTexts] at ih ⊢; exact ih

theorem mkPrompts_texts (env : PEnv Unit) :
    ∀ (c : Nat) (texts : List String),
      (mkPrompts env c texts).map (·.text) = texts.map jsStrTrim := by
  intro c texts
  induction texts generalizing c with
  | nil => rfl
  | cons t rest ih => simp [mkPrompts]; exact ih _

/-- C2: for every sequence of successful responses, `initialize` is
dispatched before `session/new`, `session/new` before any
`session/prompt`; `authenticate` is dispatched between them exactly when
the initialize result's `authMethods` includes `gemini-api-key`; and
prompts submitted before readiness are dispatched FIFO once the
`session/new` response arrives. -/
theorem handshake_and_queue_ordering
    (env : PEnv Unit) (hsend : ∀ n, env.send n = true)
    (texts : List String) (htexts : ∀ t ∈ texts, jsStrTrim t ≠ "")
    (result : JsonValue) (ams : List AuthMethod)
    (hparse : readAuthMethods (some result) = some ams)
    (sid : String) (hsid : sid ≠ "") :
    ((ams.map (·.id)).contains "gemini-api-key" = true →
      reqTrace (runPOps env .init (.start ::
          ((texts.map fun t => POp.sendPrompt t ()) ++
           [.deliver (initResponseMsg env result),
            .deliver (authResponseMsg env (1 + texts.length)),
            .deliver (sessionNewResponseMsg env (1 + texts.length + 1) sid)]))).2 =
        (ReqType.rqInit, initIdOf env) ::
        (ReqType.rqAuth, "auth-" ++ env.createId (1 + texts.length)) ::
        (ReqType.rqSessionNew, "session-" ++ env.createId (1 + texts.length + 1)) ::
        (mkPrompts env 1 texts).map (fun p => (ReqType.rqSessionPrompt, p.requestId)) ∧
      sentPromptTexts (runPOps env .init (.start ::
          ((texts.map fun t => POp.sendPrompt t ()) ++
           [.deliver (initResponseMsg env result),
            .deliver (authResponseMsg env (1 + texts.length)),
            .deliver (sessionNewResponseMsg env (1 + texts.length + 1) sid)]))).2 =
        texts.map jsStrTrim) ∧
    ((ams.map (·.id)).contains "gemini-api-key" = false →
      (ams.map (·.id)).contains "opencode-login" = false →
      reqTrace (runPOps env .init (.start ::
          ((texts.map fun t => POp.sendPrompt t ()) ++
           [.deliver (initResponseMsg env result),
            .deliver (sessionNewResponseMsg env (1 + texts.length) sid)]))).2 =
        (ReqType.rqInit, initIdOf env) ::
        (ReqType.rqSessionNew, "session-" ++ env.createId (1 + texts.length)) ::
        (mkPrompts env 1 texts).map (fun p => (ReqType.rqSessionPrompt, p.requestId)) ∧
      sentPromptTexts (runPOps env .init (.start ::
          ((texts.map fun t => POp.sendPrompt t ()) ++
           [.deliver (initResponseMsg env result),
            .deliver (sessionNewResponseMsg env (1 + texts.length) sid)]))).2 =
        texts.map jsStrTrim) := by
  have hI0 : 0 < (initIdOf env).length := by
    simpa [initIdOf] using prefixed_length_pos "init-" (env.createId 0) (by decide)
  have hsidlen : (sid.length == 0) = false := by
    simp only [beq_eq_false_iff_ne]
    intro hl
    exact absurd (hl ▸ str_length_pos_of_ne sid hsid) (by simp)
  have hlit1 : 0 < ("auth-" : String).length := by decide
  have hlit2 : 0 < ("session-" : String).length := by decide
  have hstart : runPOp env ProtoState.init .start =
      (({ started := true, initializeRequestId := some (initIdOf env),
          ctr := 1, sends := 1 } : ProtoState Unit),
       [.requestDispatched .rqInit (initIdOf env),
        .upstreamSent (initPayload (initIdOf env))]) := by
    simp [runPOp, protoStart, ProtoState.init, dispatchInit, dispatchRequest,
      trySend, hsend, initIdOf]
  have hqueue := runQueuePhase env texts htexts
      ({ started := true, initializeRequestId := some (initIdOf env),
         ctr := 1, sends := 1 } : ProtoState Unit) rfl rfl
  simp only [List.nil_append] at hqueue
  constructor
  · intro hgem
    simp at hgem
    have hd1 : protoHandleAgentMessage env
        ({ started := true, initializeRequestId := some (initIdOf env),
           queuedPrompts := mkPrompts env 1 texts,
           ctr := 1 + texts.length, sends := 1 } : ProtoState Unit)
        (initResponseMsg env result) =
        (({ started := true, initializationComplete := true,
            initializeRequestId := some (initIdOf env),
            authenticateRequestId := some ("auth-" ++ env.createId (1 + texts.length)),
            queuedPrompts := mkPrompts env 1 texts,
            ctr := 1 + texts.length + 1, sends := 2 } : ProtoState Unit),
         [.responseReceived .rqInit (initIdOf env),
          .requestDispatched .rqAuth ("auth-" ++ env.createId (1 + texts.length)),
          .upstreamSent (authPayload ("auth-" ++ env.createId (1 + texts.length))
            "gemini-api-key")], true) := by
      simp [initResponseMsg, protoHandleAgentMessage, readObject, objGet, readId,
        readMethod, hI0, handleResponseMessage, hasError, hparse, hgem,
        dispatchAuth, dispatchRequest, trySend, hsend]
    have hne1 : ("auth-" ++ env.createId (1 + texts.length)) ≠ initIdOf env := by
      simpa [initIdOf] using
        authId_ne_initId (env.createId (1 + texts.length)) (env.createId 0)
    have hA : 0 < ("auth-" ++ env.createId (1 + texts.length)).length :=
      prefixed_length_pos "auth-" _ (by decide)
    have hd2 : protoHandleAgentMessage env
        ({ started := true, initializationComplete := true,
           initializeRequestId := some (initIdOf env),
           authenticateRequestId := some ("auth-" ++ env.createId (1 + texts.length)),
           queuedPrompts := mkPrompts env 1 texts,
           ctr := 1 + texts.length + 1, sends := 2 } : ProtoState Unit)
        (authResponseMsg env (1 + texts.length)) =
        (({ started := true, initializationComplete := true,
            initializeRequestId := some (initIdOf env),
            authenticateRequestId := some ("auth-" ++ env.createId (1 + texts.length)),
            sessionRequestId := some ("session-" ++ env.createId (1 + texts.length + 1)),
            queuedPrompts := mkPrompts env 1 texts,
            ctr := 1 + texts.length + 1 + 1, sends := 3 } : ProtoState Unit),
         [.responseReceived .rqAuth ("auth-" ++ env.createId (1 + texts.length)),
          .requestDispatched .rqSessionNew ("session-" ++ env.createId (1 + texts.length + 1)),
          .upstreamSent (sessionNewPayload env
            ("session-" ++ env.createId (1 + texts.length + 1)))], true) := by
      simp [authResponseMsg, protoHandleAgentMessage, readObject, objGet, readId,
        readMethod, hA, hlit1, handleResponseMessage, hasError, hne1,
        dispatchSessionNew, dispatchRequest, trySend, hsend]
    have hne2 : ("session-" ++ env.createId (1 + texts.length + 1)) ≠ initIdOf env := by
      simpa [initIdOf] using
        sessionId_ne_initId (env.createId (1 + texts.length + 1)) (env.createId 0)
    have hne3 : ("session-" ++ env.createId (1 + texts.length + 1)) ≠
        "auth-" ++ env.createId (1 + texts.length) :=
      sessionId_ne_authId (env.createId (1 + texts.length + 1)) (env.createId (1 + texts.length))
    have hS : 0 < ("session-" ++ env.createId (1 + texts.length + 1)).length :=
      prefixed_length_pos "session-" _ (by decide)
    have hd3 : (protoHandleAgentMessage env
        ({ started := true, initializationComplete := true,
           initializeRequestId := some (initIdOf env),
           authenticateRequestId := some ("auth-" ++ env.createId (1 + texts.length)),
           sessionRequestId := some ("session-" ++ env.createId (1 + texts.length + 1)),
           queuedPrompts := mkPrompts env 1 texts,
           ctr := 1 + texts.length + 1 + 1, sends := 3 } : ProtoState Unit)
        (sessionNewResponseMsg env (1 + texts.length + 1) sid)).2.1 =
        .responseReceived .rqSessionNew ("session-" ++ env.createId (1 + texts.length + 1)) ::
        .sessionReady sid :: flushEvents sid (mkPrompts env 1 texts) := by
      simp [sessionNewResponseMsg, protoHandleAgentMessage, readObject, objGet,
        readId, readMethod, hS, hlit2, handleResponseMessage, hasError, hne2, hne3,
        hsid, hsidlen, flushQueuedPrompts, flushLoop_events env hsend sid]
    simp only [runPOps, hstart, runPOps_append, hqueue]
    simp only [List.nil_append, runPOps, runPOp, hd1, hd2]
    rw [hd3]
    constructor
    · simp only [reqTrace_append, reqTrace_queueEvents, reqTrace_flushEvents,
        List.append_assoc, List.nil_append]
      simp [reqTrace, reqTrace_flushEvents]
    · simp only [sentPromptTexts_append, sentPromptTexts_queueEvents,
        sentPromptTexts_flushEvents, List.append_assoc, List.nil_append]
      simp [sentPromptTexts, sentPromptTexts_flushEvents, mkPrompts_texts]
  · intro hgem hoc
    have hgem' : ¬ ∃ a ∈ ams, a.id = "gemini-api-key" := by simpa using hgem
    have hoc' : ¬ ∃ a ∈ ams, a.id = "opencode-login" := by simpa using hoc
    have hd1 : protoHandleAgentMessage env
        ({ started := true, initializeRequestId := some (initIdOf env),
           queuedPrompts := mkPrompts env 1 texts,
           ctr := 1 + texts.length, sends := 1 } : ProtoState Unit)
        (initResponseMsg env result) =
        (({ started := true, initializationComplete := true,
            initializeRequestId := some (initIdOf env),
            sessionRequestId := some ("session-" ++ env.createId (1 + texts.length)),
            queuedPrompts := mkPrompts env 1 texts,
            ctr := 1 + texts.length + 1, sends := 2 } : ProtoState Unit),
         [.responseReceived .rqInit (initIdOf env),
          .requestDispatched .rqSessionNew ("session-" ++ env.createId (1 + texts.length)),
          .upstreamSent (sessionNewPayload env
            ("session-" ++ env.createId (1 + texts.length)))], true) := by
      simp [initResponseMsg, protoHandleAgentMessage, readObject, objGet, readId,
        readMethod, hI0, handleResponseMessage, hasError, hparse, hgem', hoc',
        dispatchSessionNew, dispatchRequest, trySend, hsend]
    have hne2 : ("session-" ++ env.createId (1 + texts.length)) ≠ initIdOf env := by
      simpa [initIdOf] using
        sessionId_ne_initId (env.createId (1 + texts.length)) (env.createId 0)
    have hS : 0 < ("session-" ++ env.createId (1 + texts.length)).length :=
      prefixed_length_pos "session-" _ (by decide)
    have hd3 : (protoHandleAgentMessage env
        ({ started := true, initializationComplete := true,
           initializeRequestId := some (initIdOf env),
           sessionRequestId := some ("session-" ++ env.createId (1 + texts.length)),
           queuedPrompts := mkPrompts env 1 texts,
           ctr := 1 + texts.length + 1, sends := 2 } : ProtoState Unit)
        (sessionNewResponseMsg env (1 + texts.length) sid)).2.1 =
        .responseReceived .rqSessionNew ("session-" ++ env.createId (1 + texts.length)) ::
        .sessionReady sid :: flushEvents sid (mkPrompts env 1 texts) := by
      simp [sessionNewResponseMsg, protoHandleAgentMessage, readObject, objGet,
        readId, readMethod, hS, hlit2, handleResponseMessage, hasError, hne2,
        hsid, hsidlen, flushQueuedPrompts, flushLoop_events env hsend sid]
    simp only [runPOps, hstart, runPOps_append, hqueue]
    simp only [List.nil_append, runPOps, runPOp, hd1]
    rw [hd3]
    constructor
    · simp only [reqTrace_append, reqTrace_queueEvents, reqTrace_flushEvents,
        List.append_assoc, List.nil_append]
      simp [reqTrace, reqTrace_flushEvents]
    · simp only [sentPromptTexts_append, sentPromptTexts_queueEvents,
        sentPromptTexts_flushEvents, List.append_assoc, List.nil_append]
      simp [sentPromptTexts, sentPromptTexts_flushEvents, mkPrompts_texts]

/-- A concrete reliable environment (metadata-free). -/
def unitEnv : PEnv Unit :=
  { createId := fun n => toString n
    send := fun _ => true
    initialPermissionMode := "default" }

/-- Witness for C2: prompts "a" then "b" queued before readiness, a
gemini-flavoured initialize result, then the authenticate and session/new
responses: the dispatch trace is initialize, authenticate, session/new,
then the two prompts FIFO. -/
theorem handshake_and_queue_ordering_witness :
    reqTrace (runPOps unitEnv .init (.start ::
        ((["a", "b"].map fun t => POp.sendPrompt t ()) ++
         [.deliver (initResponseMsg unitEnv
            (.obj [("authMethods", .arr [.obj [("id", .str "gemini-api-key")]])])),
          .deliver (authResponseMsg unitEnv (1 + (["a", "b"] : List String).length)),
          .deliver (sessionNewResponseMsg unitEnv
            (1 + (["a", "b"] : List String).length + 1) "s1")]))).2 =
      (ReqType.rqInit, initIdOf unitEnv) ::
      (ReqType.rqAuth, "auth-" ++ unitEnv.createId (1 + (["a", "b"] : List String).length)) ::
      (ReqType.rqSessionNew,
        "session-" ++ unitEnv.createId (1 + (["a", "b"] : List String).length + 1)) ::
      (mkPrompts unitEnv 1 ["a", "b"]).map (fun p => (ReqType.rqSessionPrompt, p.requestId)) ∧
    sentPromptTexts (runPOps unitEnv .init (.start ::
        ((["a", "b"].map fun t => POp.sendPrompt t ()) ++
         [.deliver (initResponseMsg unitEnv
            (.obj [("authMethods", .arr [.obj [("id", .str "gemini-api-key")]])])),
          .deliver (authResponseMsg unitEnv (1 + (["a", "b"] : List String).length)),
          .deliver (sessionNewResponseMsg unitEnv
            (1 + (["a", "b"] : List String).length + 1) "s1")]))).2 =
      (["a", "b"] : List String).map jsStrTrim :=
  (handshake_and_queue_ordering unitEnv (fun _ => rfl) ["a", "b"] (by decide)
      (.obj [("authMethods", .arr [.obj [("id", .str "gemini-api-key")]])])
      [{ id := "gemini-api-key", name := "gemini-api-key", description := "" }]
      rfl "s1" (by decide)).1 (by decide)

/-! ## Chat session (chatSession.ts)

The chat session is embedded in a state-plus-exceptions monad
`ChatM := StateT Chat (Except Unit)`: JavaScript exceptions escaping an
operation are `throw ()`, and the ordered observable side effects
(snippets handed to `pushSnippet`, sentence deliveries, persistence and
working-state callbacks) accumulate in `Chat.out`.  The renderer functions
(`renderChat…Snippet`) produce opaque HTML strings; they are modelled as
the structured constructors of `ChatOut`, which is what every claim is
about (kinds, payload data, counts and order of the snippets — never the
HTML text).  Two callbacks are failure-injectable, matching the claims
under scrutiny: `pushSnippet` (NOT wrapped in `try`/`catch` anywhere in
the source — a throw escapes) and `onSentenceReady` (always wrapped — a
throw is swallowed).  The remaining callbacks (`onNewMessage`,
`onToolCall`, `onSessionReady`, `onWorkingStateChange`,
`onPermissionRequest`) are modelled as non-throwing recorders.  The
protocol session is embedded by value (`Chat.proto`), its callbacks
interpreted in event order; `createId` draws from the shared counter
`proto.ctr` exactly as the single injected generator does. -/

structure TextSegment where
  id : String
  content : String
  isClosed : Bool
deriving DecidableEq, Repr

structure SentenceBuffer where
  raw : String
  sentencesSent : Nat
deriving DecidableEq, Repr

/-- `ToolMessageState`: `status`/`kind` are three-valued
(`undefined` = `none`, `null` = `some none`, a string = `some (some s)`). -/
structure ToolMessageState where
  id : String
  title : String
  status : Option (Option String)
  kind : Option (Option String)
  content : List String
deriving DecidableEq, Repr

structure ChatToolMessageData where
  id : String
  title : String
  status : Option String
  kind : Option String
  content : List String
deriving DecidableEq, Repr

structure ChatPromptState where
  requestId : Option String
  agentMessageId : String
  systemMessageId : String
  agentContent : String
  thoughtContent : String
  completed : Bool
  cancelled : Bool
  cancelNoticeShown : Bool
  noticeCleared : Bool
  toolMessages : List (String × ToolMessageState)
  textSegments : List TextSegment
  sentenceBuffer : SentenceBuffer
  currentSegmentId : Option String
deriving Repr

/-- The error-snippet payloads (the rendered strings are opaque to every
claim, only their kind matters). -/
inductive ErrDetail where
  | text (s : String)
  | jsonDetails
  | authRequired (command : String)
  | authInstructions (description : String)
deriving DecidableEq, Repr

/-- Ordered observable outputs of the chat session. -/
inductive ChatOut where
  | statusSnippet (text : String) (tone : String)
  | errorSnippet (details : ErrDetail) (id : String)
  | userMessageSnippet (text : String) (id : String)
  | systemNoticeSnippet (text : String) (id : String)
  | agentMessageSnippet (content : String) (id : String)
  | agentUpdateSnippet (content : String) (id : String)
  | thoughtUpdateSnippet (text : String) (id : String)
  | messageHiddenSnippet (id : String)
  | cancelledSnippet
  | toolCallSnippet (data : ChatToolMessageData)
  | toolCallUpdateSnippet (data : ChatToolMessageData)
  | sentenceReady (sentence : String)
  | workingStateChange (isWorking : Bool) (toolCall : Option (String × Option String))
  | newMessage (role : String) (content : String)
  | toolCallPersist (toolCallId : String) (title : String)
      (status : Option (Option String)) (kind : Option (Option String))
      (content : List String)
  | sessionReadyCb (sessionId : String)
  | permissionRequestCb (requestId : Int)
  | upstream (payload : JsonValue)

/-- Chat-session construction options. -/
structure CEnv where
  penv : PEnv JsonValue
  agentType : String := "claude"
  pushThrows : Nat → Bool := fun _ => false
  sentenceThrows : Nat → Bool := fun _ => false

/-- Mutable state of a `ChatSession` (including the embedded protocol
session and the output/callback counters). -/
structure Chat where
  proto : ProtoState JsonValue := .init
  initialPermissionMode : String
  promptStates : List ChatPromptState := []
  currentToolCallTitle : Option String := none
  cancelInFlight : Bool := false
  orphanMessageId : Option String := none
  orphanMessageContent : String := ""
  started : Bool := false
  pushCount : Nat := 0
  sentenceCount : Nat := 0
  out : List ChatOut := []

/-- A fresh chat session with the given initial permission mode. -/
def Chat.mk0 (mode : String) : Chat := { initialPermissionMode := mode }

/-- The result of a chat-session operation: the updated state, or a
JavaScript exception escaping the operation (`Except.error ()`).
Operations are written in explicit state-passing style, sequenced with
`Except.bind`; steps that cannot throw are plain `Chat → Chat`
functions. -/
abbrev ChatRes := Except Unit Chat

/-- Record an observable output. -/
def emitOut (e : ChatOut) (s : Chat) : Chat := { s with out := s.out ++ [e] }

/-- `this.pushSnippet(...)`: NOT wrapped in `try`/`catch` anywhere in the
source, so a throwing callback escapes the operation. -/
def chatPushSnippet (env : CEnv) (e : ChatOut) (s : Chat) : ChatRes :=
  let n := s.pushCount
  let s := { s with pushCount := n + 1 }
  if env.pushThrows n then .error () else .ok (emitOut e s)

/-- `this.onSentenceReady?.(sentence)` — every call site wraps it in
`try { … } catch { /* callback error ignored */ }`, so a throw is
swallowed (the sentence is simply not delivered) and the operation
continues. -/
def fireSentenceReady (env : CEnv) (sentence : String) (s : Chat) : Chat :=
  let n := s.sentenceCount
  let s := { s with sentenceCount := n + 1 }
  if env.sentenceThrows n then s else emitOut (.sentenceReady sentence) s

/-- Allocate `prefix + createId()` from the shared generator. -/
def freshId (env : CEnv) (pre : String) (s : Chat) : String × Chat :=
  let n := s.proto.ctr
  (pre ++ env.penv.createId n, { s with proto := { s.proto with ctr := n + 1 } })

/-- In-place update of the `i`-th element. -/
def listModify {α : Type} : List α → Nat → (α → α) → List α
  | [], _, _ => []
  | x :: rest, 0, f => f x :: rest
  | x :: rest, n + 1, f => x :: listModify rest n f

def readPS (i : Nat) (s : Chat) : Option ChatPromptState :=
  s.promptStates.get? i

def updatePS (i : Nat) (f : ChatPromptState → ChatPromptState) (s : Chat) : Chat :=
  { s with promptStates := listModify s.promptStates i f }

/-- `getActivePromptState` (as an index): first not-completed state. -/
def getActiveIdx (s : Chat) : Option Nat :=
  s.promptStates.findIdx? fun st => !st.completed

/-- `getMostRecentPromptState` (as an index). -/
def getMostRecentIdx (s : Chat) : Option Nat :=
  if s.promptStates.length == 0 then none else some (s.promptStates.length - 1)

/-- `readTextBlock(block)`. -/
def readTextBlock (block : List (String × JsonValue)) : Option String :=
  match objGet block "type", objGet block "text" with
  | some (.str "text"), some (.str text) => some text
  | _, _ =>
    match objGet block "message" with
    | some (.str message) => some message
    | _ =>
      match objGet block "content" with
      | some (.str content) => some content
      | _ => none

mutual
/-- `collectTextContent(value)` on a present value. -/
def collectTextContent : JsonValue → List String
  | .str s => [s]
  | .arr elems => collectTextList elems
  | .obj fields =>
    if (match objGet fields "type" with
        | some (.str t) => t == "content"
        | _ => false) && (objGet fields "content").isSome then
      collectContentField fields
    else
      match readTextBlock fields with
      | some t => [t]
      | none => []
  | _ => []

def collectTextList : List JsonValue → List String
  | [] => []
  | v :: rest => collectTextContent v ++ collectTextList rest

/-- Recurse into the (first) `content` field of a `type: "content"`
wrapper. -/
def collectContentField : List (String × JsonValue) → List String
  | [] => []
  | (k, v) :: rest => if k == "content" then collectTextContent v else collectContentField rest
end

/-- `collectTextContent` on a possibly-absent field (`undefined`/`null`
yield nothing). -/
def collectTextContentOpt : Option JsonValue → List String
  | none => []
  | some v => collectTextContent v

/-- `joinContent(parts)`: streaming chunks are concatenated directly. -/
def joinContent : List String → String
  | [] => ""
  | [p] => p
  | parts => String.join parts

/-- `appendSegment(existing, addition)`. -/
def appendSegment (existing addition : String) : String :=
  if existing.length == 0 then addition
  else if addition.length == 0 then existing
  else existing ++ addition

/-- Does the lower-cased string contain the pattern as a substring? -/
def listContainsSub (sub : List Char) : List Char → Bool
  | [] => sub.isEmpty
  | c :: rest => sub.isPrefixOf (c :: rest) || listContainsSub sub rest

def lowerIncludes (s : String) (sub : String) : Bool :=
  listContainsSub sub.toList (s.toList.map Char.toLower)

/-- `isTerminalToolStatus(status)`: falsy statuses are non-terminal,
otherwise case-insensitive substring classification. -/
def isTerminalToolStatus (status : Option (Option String)) : Bool :=
  match status with
  | some (some s) =>
    if s.length == 0 then false
    else
      lowerIncludes s "complete" || lowerIncludes s "success" ||
      lowerIncludes s "done" || lowerIncludes s "fail" ||
      lowerIncludes s "error" || lowerIncludes s "cancel"
  | _ => false

/-- `readStringField(record, key)`. -/
def readStringField (record : List (String × JsonValue)) (key : String) : Option String :=
  match objGet record key with
  | some (.str s) => if s.length > 0 then some s else none
  | _ => none

/-- `readStopReason(result)`. -/
def readStopReason (result : List (String × JsonValue)) : Option String :=
  readStringField result "stopReason"

/-- `readNullableString(value)`. -/
def readNullableString : Option JsonValue → Option String
  | some .null => none
  | some (.str s) => if s.length > 0 then some s else none
  | _ => none

/-- `hasOwn(record, key)` (parsed JSON: field presence). -/
def hasOwnField (record : List (String × JsonValue)) (key : String) : Bool :=
  (objGet record key).isSome

/-- `readSessionUpdateType(update)`. -/
def readSessionUpdateType (update : List (String × JsonValue)) : Option String :=
  match objGet update "sessionUpdate" with
  | some (.str s) => if s.length > 0 then some s else none
  | _ => none

/-- `asPromptMetadata(metadata)`. -/
def asPromptMetadata (metadata : JsonValue) : Option String :=
  match readObject metadata with
  | none => none
  | some record =>
    match objGet record "agentMessageId" with
    | some (.str s) => if s.length > 0 then some s else none
    | _ => none

/-- `normalizeAgentContent(state, fallback)`. -/
def normalizeAgentContent (agentContent : Option String) (fallback : String) : String :=
  let aggregated := agentContent.getD ""
  if (jsStrTrim aggregated).length > 0 then aggregated else fallback

/-- `extractContent(result)`: gather text blocks, else a trimmed
`message` string, else empty. -/
def extractContent (result : List (String × JsonValue)) : String :=
  let fromContent :=
    match objGet result "content" with
    | some (.arr content) =>
      let collected := content.filterMap fun block =>
        match block with
        | .str s => some s
        | .obj fields => readTextBlock fields
        | _ => none
      if collected.length > 0 then some (String.intercalate "\n\n" collected) else none
    | _ => none
  match fromContent with
  | some s => s
  | none =>
    match objGet result "message" with
    | some (.str message) =>
      if (jsStrTrim message).length > 0 then jsStrTrim message else ""
    | _ => ""

/-- `toToolMessageData(toolState)` (`?? undefined` flattening). -/
def toToolMessageData (toolState : ToolMessageState) : ChatToolMessageData :=
  { id := toolState.id, title := toolState.title,
    status := toolState.status.getD none, kind := toolState.kind.getD none,
    content := toolState.content }

/-- `getErrorMessage(error)` (the rendered remediation strings are
abstracted; the classification logic is exact). -/
def getErrorMessage (env : CEnv) (error : Option JsonValue) : ErrDetail :=
  let isAuthError :=
    match error.bind readObject with
    | some err =>
      ((match objGet err "code", objGet err "message" with
        | some (.num code), some (.str msg) =>
          code == -32000 && msg == "Authentication required"
        | _, _ => false) ||
       (match (objGet err "data").bind readObject with
        | some data =>
          (match objGet data "details" with
           | some (.str d) => d == "invalid_grant"
           | _ => false)
        | none => false))
    | none => false
  if isAuthError then
    let command :=
      if env.agentType == "claude" then "claude"
      else if env.agentType == "gemini" then "gemini"
      else if env.agentType == "codex" then "codex"
      else if env.agentType == "opencode" then "opencode auth login"
      else env.agentType
    .authRequired command
  else .jsonDetails


/-- `appendOrphanAgentMessage(addition)`. -/
def appendOrphanAgentMessage (env : CEnv) (addition : String) (s : Chat) : ChatRes :=
  (if s.orphanMessageId.isNone then
    let r := freshId env "agent-" s
    let s := { r.2 with orphanMessageId := some r.1, orphanMessageContent := "" }
    chatPushSnippet env (.agentMessageSnippet "…" r.1) s
  else .ok s).bind fun s =>
    let newContent := appendSegment s.orphanMessageContent addition
    let s := { s with orphanMessageContent := newContent }
    chatPushSnippet env (.agentUpdateSnippet newContent (s.orphanMessageId.getD "")) s

/-- `clearOrphanAgentMessage()`. -/
def clearOrphanAgentMessage (s : Chat) : Chat :=
  { s with orphanMessageId := none, orphanMessageContent := "" }

/-- `hideSystemNoticeIfNeeded(state)`. -/
def hideSystemNoticeIfNeeded (env : CEnv) (i : Nat) (s : Chat) : ChatRes :=
  match readPS i s with
  | none => .ok s
  | some st =>
    if st.noticeCleared then .ok s
    else if (jsStrTrim st.thoughtContent).length > 0 then .ok s
    else
      (chatPushSnippet env (.messageHiddenSnippet st.systemMessageId) s).bind fun s =>
        .ok (updatePS i (fun st => { st with noticeCleared := true }) s)

/-- Emit each not-yet-sent sentence (trimmed, skipping blanks), each
delivery individually `try`/`catch`-guarded. -/
def emitSentences (env : CEnv) : List String → Chat → Chat
  | [], s => s
  | sentence :: rest, s =>
    let t := jsStrTrim sentence
    emitSentences env rest (if t.length > 0 then fireSentenceReady env t s else s)

/-- `processSentenceBuffer(state)`: extract sentences from the raw buffer,
emit those at positions ≥ `sentencesSent`, then record
`sentencesSent := sentences.length` and `raw := remainder`. -/
def processSentenceBuffer (env : CEnv) (i : Nat) (s : Chat) : Chat :=
  match readPS i s with
  | none => s
  | some st =>
    let r := extractSentences st.sentenceBuffer.raw
    let s := emitSentences env (r.1.drop st.sentenceBuffer.sentencesSent) s
    updatePS i (fun st =>
      { st with sentenceBuffer := { raw := r.2, sentencesSent := r.1.length } }) s

/-- `flushSentenceBuffer(state)`. -/
def flushSentenceBuffer (env : CEnv) (i : Nat) (s : Chat) : Chat :=
  match readPS i s with
  | none => s
  | some st =>
    let remaining := jsStrTrim st.sentenceBuffer.raw
    let s := if remaining.length > 0 then fireSentenceReady env remaining s else s
    updatePS i (fun st =>
      { st with sentenceBuffer := { raw := "", sentencesSent := 0 } }) s

/-- `finalizeCancelledState(state)`: guarded by `cancelNoticeShown`. -/
def finalizeCancelledState (env : CEnv) (i : Nat) (s : Chat) : ChatRes :=
  match readPS i s with
  | none => .ok s
  | some st =>
    if st.cancelNoticeShown then .ok s
    else
      let s := updatePS i (fun st =>
        { st with cancelled := true, cancelNoticeShown := true, completed := true }) s
      (chatPushSnippet env (.messageHiddenSnippet st.systemMessageId) s).bind fun s =>
        let s := updatePS i (fun st => { st with noticeCleared := true }) s
        let s := { s with currentToolCallTitle := none }
        let s := emitOut (.workingStateChange false none) s
        chatPushSnippet env .cancelledSnippet s

/-- `handleAgentMessageChunk(state, update)`. -/
def chatHandleAgentMessageChunk (env : CEnv) (idx : Option Nat)
    (update : List (String × JsonValue)) (s : Chat) : ChatRes :=
  let addition := joinContent (collectTextContentOpt (objGet update "content"))
  if addition.length == 0 then .ok s
  else
    match idx with
    | none => appendOrphanAgentMessage env addition s
    | some i =>
      let s := clearOrphanAgentMessage s
      match readPS i s with
      | none => .ok s
      | some st0 =>
        -- get or create current text segment
        (if st0.currentSegmentId.isNone then
          let r := freshId env "segment-" s
          let s := updatePS i (fun st =>
            { st with
              textSegments :=
                st.textSegments ++ [{ id := r.1, content := "", isClosed := false }],
              currentSegmentId := some r.1 }) r.2
          chatPushSnippet env (.agentMessageSnippet "…" r.1) s
        else .ok s).bind fun s =>
          -- append to the current segment and re-render it whole
          ((match readPS i s with
            | none => .ok s
            | some st =>
              match st.currentSegmentId with
              | none => .ok s
              | some csid =>
                match st.textSegments.find? (fun seg => seg.id == csid) with
                | none => .ok s
                | some currentSegment =>
                  let newContent := appendSegment currentSegment.content addition
                  let s := updatePS i (fun st =>
                    { st with textSegments := st.textSegments.map fun seg =>
                        if seg.id == csid then { seg with content := newContent }
                        else seg }) s
                  chatPushSnippet env (.agentUpdateSnippet newContent csid) s : ChatRes)).bind fun s =>
            let s := updatePS i
              (fun st => { st with agentContent := appendSegment st.agentContent addition }) s
            let s := updatePS i (fun st =>
              { st with sentenceBuffer :=
                  { st.sentenceBuffer with
                    raw := appendSegment st.sentenceBuffer.raw addition } }) s
            let s := processSentenceBuffer env i s
            hideSystemNoticeIfNeeded env i s

/-- `handleAgentThoughtChunk(state, update)`. -/
def chatHandleAgentThoughtChunk (env : CEnv) (idx : Option Nat)
    (update : List (String × JsonValue)) (s : Chat) : ChatRes :=
  match idx with
  | none => .ok s
  | some i =>
    let addition := joinContent (collectTextContentOpt (objGet update "content"))
    if addition.length == 0 then .ok s
    else
      match readPS i s with
      | none => .ok s
      | some st0 =>
        let newThought := appendSegment st0.thoughtContent addition
        let s := updatePS i (fun st => { st with thoughtContent := newThought }) s
        (chatPushSnippet env
            (.thoughtUpdateSnippet (jsStrTrim newThought) st0.systemMessageId) s).bind fun s =>
          .ok (updatePS i (fun st => { st with noticeCleared := true }) s)

/-- The branch of `handleToolCallUpdate` for a not-yet-seen `toolCallId`:
close the open text segment, flush the sentence buffer, create and render
the tool-call state. -/
def chatToolCallNew (env : CEnv) (i : Nat) (toolCallId : String)
    (title : Option String) (statusDefined kindDefined : Bool)
    (statusValue kindValue : Option String) (contentValue : Option (List String))
    (currentSegmentId : Option String) (s : Chat) : ChatRes :=
  let s1 := match currentSegmentId with
    | some csid =>
      updatePS i (fun st =>
        { st with
          textSegments := st.textSegments.map fun seg =>
            if seg.id == csid then { seg with isClosed := true } else seg,
          currentSegmentId := none }) s
    | none => s
  let s2 := flushSentenceBuffer env i s1
  let r := freshId env "tool-" s2
  let toolState : ToolMessageState :=
    { id := r.1, title := title.getD "Tool call",
      status := if statusDefined then some statusValue else none,
      kind := if kindDefined then some kindValue else none,
      content := contentValue.getD [] }
  let s3 := updatePS i (fun st =>
    { st with toolMessages := mapSet st.toolMessages toolCallId toolState }) r.2
  let s4 := { s3 with currentToolCallTitle := some toolState.title }
  let s5 := emitOut
    (.workingStateChange true (some (toolState.title, toolState.status.getD none))) s4
  chatPushSnippet env (.toolCallSnippet (toToolMessageData toolState)) s5

/-- The branch of `handleToolCallUpdate` for an existing `toolCallId`:
merge the defined fields, re-render, and persist on a terminal status. -/
def chatToolCallExisting (env : CEnv) (i : Nat) (toolCallId : String)
    (title : Option String) (statusDefined kindDefined : Bool)
    (statusValue kindValue : Option String) (contentValue : Option (List String))
    (toolState0 : ToolMessageState) (s : Chat) : ChatRes :=
  let toolState1 : ToolMessageState :=
    { toolState0 with
      title := title.getD toolState0.title,
      status := if statusDefined then some statusValue else toolState0.status,
      kind := if kindDefined then some kindValue else toolState0.kind,
      content := contentValue.getD toolState0.content }
  let s1 := if title.isSome then { s with currentToolCallTitle := title } else s
  let s2 := updatePS i (fun st =>
    { st with toolMessages := mapSet st.toolMessages toolCallId toolState1 }) s1
  let s3 := emitOut
    (.workingStateChange true (some (toolState1.title, toolState1.status.getD none))) s2
  (chatPushSnippet env (.toolCallUpdateSnippet (toToolMessageData toolState1)) s3).bind
    fun s4 =>
      -- persist exactly when the status is classified terminal
      if isTerminalToolStatus toolState1.status then
        .ok (emitOut (.toolCallPersist toolCallId toolState1.title toolState1.status
          toolState1.kind toolState1.content) s4)
      else .ok s4

/-- `handleToolCallUpdate(state, update)`. -/
def chatHandleToolCallUpdate (env : CEnv) (idx : Option Nat)
    (update : List (String × JsonValue)) (s : Chat) : ChatRes :=
  match idx with
  | none => .ok s
  | some i =>
    match readStringField update "toolCallId" with
    | none =>
      let r := freshId env "error-" s
      chatPushSnippet env (.errorSnippet (.text "Tool call update missing toolCallId.") r.1) r.2
    | some toolCallId =>
      match readPS i s with
      | none => .ok s
      | some st0 =>
        let title := readStringField update "title"
        let statusDefined := hasOwnField update "status"
        let kindDefined := hasOwnField update "kind"
        let contentDefined := hasOwnField update "content"
        let statusValue :=
          if statusDefined then readNullableString (objGet update "status") else none
        let kindValue :=
          if kindDefined then readNullableString (objGet update "kind") else none
        let contentValue :=
          if contentDefined then some (collectTextContentOpt (objGet update "content"))
          else none
        match mapGet st0.toolMessages toolCallId with
        | none =>
          chatToolCallNew env i toolCallId title statusDefined kindDefined
            statusValue kindValue contentValue st0.currentSegmentId s
        | some toolState0 =>
          chatToolCallExisting env i toolCallId title statusDefined kindDefined
            statusValue kindValue contentValue toolState0 s

/-- `handleSessionUpdate(update)`. -/
def chatHandleSessionUpdate (env : CEnv) (update : JsonValue) (s : Chat) : ChatRes :=
  let updFields := (readObject update).getD []
  match readSessionUpdateType updFields with
  | none => .ok s
  | some sessionUpdateType =>
    let activeIdx := getActiveIdx s
    if activeIdx.isNone && s.cancelInFlight then .ok s
    else
      let stateIdx := match activeIdx with
        | some i => some i
        | none => getMostRecentIdx s
      let isCancelled : Bool := match stateIdx with
        | some i => ((s.promptStates.get? i).map fun st => st.cancelled).getD false
        | none => false
      if isCancelled then .ok s
      else if sessionUpdateType == "agent_message_chunk" then
        chatHandleAgentMessageChunk env stateIdx updFields s
      else if sessionUpdateType == "agent_thought_chunk" then
        chatHandleAgentThoughtChunk env stateIdx updFields s
      else if sessionUpdateType == "tool_call" || sessionUpdateType == "tool_call_update" then
        chatHandleToolCallUpdate env stateIdx updFields s
      else .ok s

/-- The loop body of `cancelActiveToolCalls`: every non-terminal tool call
is marked `cancelled` with an update snippet; returns the last one so
marked. -/
def cancelToolLoop (env : CEnv) (i : Nat) :
    List (String × ToolMessageState) → Option ToolMessageState → Chat →
    Except Unit (Option ToolMessageState × Chat)
  | [], latest, s => .ok (latest, s)
  | (key, ts) :: rest, latest, s =>
    if isTerminalToolStatus ts.status then cancelToolLoop env i rest latest s
    else
      let ts1 := { ts with status := some (some "cancelled") }
      let s1 := updatePS i (fun st =>
        { st with toolMessages := mapSet st.toolMessages key ts1 }) s
      (chatPushSnippet env (.toolCallUpdateSnippet (toToolMessageData ts1)) s1).bind fun s2 =>
        cancelToolLoop env i rest (some ts1) s2

/-- `cancelActiveToolCalls()`. -/
def cancelActiveToolCalls (env : CEnv) (s : Chat) : ChatRes :=
  match getActiveIdx s with
  | none => .ok s
  | some i =>
    match readPS i s with
    | none => .ok s
    | some st =>
      if st.toolMessages.length == 0 then .ok s
      else
        (cancelToolLoop env i st.toolMessages none s).bind fun r =>
          match r.1 with
          | some lt =>
            let s1 := { r.2 with currentToolCallTitle := some lt.title }
            .ok (emitOut (.workingStateChange true (some (lt.title, lt.status.getD none))) s1)
          | none => .ok r.2

/-- The `onPromptResult` callback installed by `ChatSession`. -/
def chatOnPromptResult (env : CEnv) (result : JsonValue) (metadata : JsonValue)
    (s : Chat) : ChatRes :=
  match asPromptMetadata metadata with
  | none =>
    let r := freshId env "error-" s
    chatPushSnippet env (.errorSnippet (.text "Agent response missing metadata.") r.1) r.2
  | some agentMessageId =>
    let stateIdx := s.promptStates.findIdx? fun st => st.agentMessageId == agentMessageId
    let rfields := (readObject result).getD []
    let stopReason := readStopReason rfields
    if stopReason == some "cancelled" then
      let s1 := { s with cancelInFlight := false }
      match stateIdx with
      | some i =>
        (match readPS i s1 with
         | some st =>
           if !st.cancelNoticeShown then finalizeCancelledState env i s1 else .ok s1
         | none => .ok s1)
      | none => .ok s1
    else
      let s1 := { s with cancelInFlight := false }
      let fallbackContent := extractContent rfields
      let stateAgentContent : Option String := match stateIdx with
        | some i => (s1.promptStates.get? i).map fun st => st.agentContent
        | none => none
      let rendered := normalizeAgentContent stateAgentContent fallbackContent
      ((match stateIdx with
        | some i =>
          -- flush any remaining sentence buffer for TTS
          let s2 := flushSentenceBuffer env i s1
          (match readPS i s2 with
           | none => .ok s2
           | some st =>
             let currentSegment : Option TextSegment := match st.currentSegmentId with
               | some csid => st.textSegments.find? (fun seg => seg.id == csid)
               | none => none
             ((match currentSegment with
               | some seg => chatPushSnippet env (.agentUpdateSnippet seg.content seg.id) s2
               | none =>
                 if st.textSegments.length == 0 && (jsStrTrim rendered).length > 0 then
                   let r := freshId env "segment-" s2
                   chatPushSnippet env (.agentMessageSnippet rendered r.1) r.2
                 else .ok s2 : ChatRes)).bind fun s3 =>
               let s4 := updatePS i
                 (fun st => { st with agentContent := rendered, completed := true }) s3
               hideSystemNoticeIfNeeded env i s4 : ChatRes)
        | none => .ok s1 : ChatRes)).bind fun s5 =>
        let s6 := { s5 with currentToolCallTitle := none }
        let s7 := emitOut (.workingStateChange false none) s6
        -- persist for history (skipped when the final rendered content is empty)
        if (jsStrTrim rendered).length > 0 then .ok (emitOut (.newMessage "assistant" rendered) s7)
        else .ok s7

/-- The `onPromptError` callback installed by `ChatSession`. -/
def chatOnPromptError (env : CEnv) (error : Option JsonValue) (metadata : JsonValue)
    (s : Chat) : ChatRes :=
  let promptMeta := asPromptMetadata metadata
  let s1 := { s with cancelInFlight := false }
  let s2 := { s1 with currentToolCallTitle := none }
  let s3 := emitOut (.workingStateChange false none) s2
  let details := getErrorMessage env error
  let stateIdx := promptMeta.bind fun agentMessageId =>
    s3.promptStates.findIdx? fun st => st.agentMessageId == agentMessageId
  let stCancelled : Bool := match stateIdx with
    | some i => ((s3.promptStates.get? i).map fun st => st.cancelled).getD false
    | none => false
  if stCancelled then
    let s4 := { s3 with cancelInFlight := false }
    match stateIdx with
    | some i =>
      (match readPS i s4 with
       | some st =>
         if !st.cancelNoticeShown then finalizeCancelledState env i s4 else .ok s4
       | none => .ok s4)
    | none => .ok s4
  else
    let r := freshId env "error-" s3
    (chatPushSnippet env (.errorSnippet details r.1) r.2).bind fun s4 =>
      -- the source repeats this completed/hide block twice verbatim
      match stateIdx with
      | some i =>
        let s5 := updatePS i (fun st => { st with completed := true }) s4
        (hideSystemNoticeIfNeeded env i s5).bind fun s6 =>
          let s7 := updatePS i (fun st => { st with completed := true }) s6
          hideSystemNoticeIfNeeded env i s7
      | none => .ok s4

/-- Record the upstream frames of a fire-and-forget protocol call (none of
its callbacks are wired to the chat session). -/
def recordUpstreamOnly : List (PEvent JsonValue) → Chat → Chat
  | [], s => s
  | .upstreamSent payload :: rest, s => recordUpstreamOnly rest (emitOut (.upstream payload) s)
  | _ :: rest, s => recordUpstreamOnly rest s

/-- The chat session's interpretation of one protocol-session callback
event (mirrors the callbacks installed in the `ChatSession` constructor;
unwired callbacks are ignored). -/
def chatOnPEvent (env : CEnv) (e : PEvent JsonValue) (s : Chat) : ChatRes :=
  match e with
  | .upstreamSent payload => .ok (emitOut (.upstream payload) s)
  | .requestDispatched t _ =>
    if t == .rqInit then chatPushSnippet env (.statusSnippet "Initializing…" "info") s
    else .ok s
  | .responseReceived _ _ => .ok s
  | .initializeError =>
    (chatPushSnippet env (.statusSnippet "Initialize failed" "error") s).bind fun s1 =>
      let r := freshId env "error-" s1
      chatPushSnippet env (.errorSnippet .jsonDetails r.1) r.2
  | .sessionReady sessionId =>
    (chatPushSnippet env (.statusSnippet "Connected" "success") s).bind fun s1 =>
      let r := protoSetMode env.penv s1.proto s1.initialPermissionMode
      let s2 := recordUpstreamOnly r.2.1 { s1 with proto := r.1 }
      -- try { onSessionReady } catch ignored — modelled non-throwing
      .ok (emitOut (.sessionReadyCb sessionId) s2)
  | .sessionError =>
    (chatPushSnippet env (.statusSnippet "Session error" "error") s).bind fun s1 =>
      let r := freshId env "error-" s1
      chatPushSnippet env (.errorSnippet .jsonDetails r.1) r.2
  | .authenticationRequired _ _ description =>
    (chatPushSnippet env (.statusSnippet "Authentication required" "error") s).bind fun s1 =>
      let r := freshId env "error-" s1
      chatPushSnippet env (.errorSnippet (.authInstructions description) r.1) r.2
  | .promptQueued _ _ _ => .ok s
  | .promptSent _ _ _ => .ok s
  | .promptResult _ result metadata => chatOnPromptResult env result metadata s
  | .promptError _ error metadata => chatOnPromptError env error metadata s
  | .sessionUpdate _ update => chatHandleSessionUpdate env update s
  | .permissionRequest requestId _ _ _ => .ok (emitOut (.permissionRequestCb requestId) s)

def interpEvents (env : CEnv) : List (PEvent JsonValue) → Chat → ChatRes
  | [], s => .ok s
  | e :: rest, s => (chatOnPEvent env e s).bind fun s1 => interpEvents env rest s1

/-- `ChatSession.start()`. -/
def chatStart (env : CEnv) (s : Chat) : ChatRes :=
  if s.started then .ok s
  else
    let s1 := { s with started := true }
    let r := protoStart env.penv s1.proto
    interpEvents env r.2 { s1 with proto := r.1 }

/-- `ChatSession.handleUserMessage(text)`. -/
def chatHandleUserMessage (env : CEnv) (text : String) (s : Chat) : ChatRes :=
  let trimmed := jsStrTrim text
  if trimmed.length == 0 then .ok s
  else
    let s1 := { s with cancelInFlight := false }
    let s2 := clearOrphanAgentMessage s1
    -- force-complete any previous incomplete states (single-active-turn)
    let s3 := { s2 with promptStates := s2.promptStates.map fun st =>
        if !st.completed then { st with completed := true } else st }
    let r1 := freshId env "user-" s3
    (chatPushSnippet env (.userMessageSnippet trimmed r1.1) r1.2).bind fun s4 =>
      let r2 := freshId env "system-" s4
      let r3 := freshId env "agent-" r2.2
      let promptState : ChatPromptState :=
        { requestId := none, agentMessageId := r3.1, systemMessageId := r2.1,
          agentContent := "", thoughtContent := "",
          completed := false, cancelled := false, cancelNoticeShown := false,
          noticeCleared := false, toolMessages := [], textSegments := [],
          sentenceBuffer := { raw := "", sentencesSent := 0 }, currentSegmentId := none }
      let s5 := { r3.2 with promptStates := r3.2.promptStates ++ [promptState] }
      let i := s5.promptStates.length - 1
      (chatPushSnippet env (.systemNoticeSnippet "Agent is thinking…" r2.1) s5).bind fun s6 =>
        let s7 := emitOut (.workingStateChange true none) s6
        let rp := protoSendPrompt env.penv s7.proto trimmed
          (.obj [("agentMessageId", .str r3.1)])
        (interpEvents env rp.2.1 { s7 with proto := rp.1 }).bind fun s8 =>
          let s9 := match rp.2.2 with
            | some requestId => updatePS i (fun st => { st with requestId := some requestId }) s8
            | none => s8
          -- try { onNewMessage } catch ignored — modelled non-throwing
          let s10 := emitOut (.newMessage "user" trimmed) s9
          chatStart env s10

/-- `ChatSession.handleAgentMessage(message)`. -/
def chatHandleAgentMessage (env : CEnv) (message : JsonValue) (s : Chat) :
    Except Unit (Bool × Chat) :=
  let r := protoHandleAgentMessage env.penv s.proto message
  (interpEvents env r.2.1 { s with proto := r.1 }).map fun s1 => (r.2.2, s1)

/-- `ChatSession.setMode(modeId)`. -/
def chatSetMode (env : CEnv) (modeId : String) (s : Chat) : Bool × Chat :=
  let s1 := { s with initialPermissionMode := modeId }
  let r := protoSetMode env.penv s1.proto modeId
  (r.2.2, recordUpstreamOnly r.2.1 { s1 with proto := r.1 })

/-- `ChatSession.cancelPrompt()`. -/
def chatCancelPrompt (env : CEnv) (s : Chat) : Except Unit (Bool × Chat) :=
  let r := protoCancelCurrentPrompt env.penv s.proto
  let s1 := recordUpstreamOnly r.2.1 { s with proto := r.1 }
  if r.2.2 then
    let stateIdx := getActiveIdx s1
    let s2 := { s1 with cancelInFlight := true }
    (cancelActiveToolCalls env s2).bind fun s3 =>
      ((match stateIdx with
        | some i => finalizeCancelledState env i s3
        | none => .ok s3 : ChatRes)).map fun s4 => (true, s4)
  else .ok (false, s1)

/-! ## Concrete chat-session scenarios (claims C3, C5, C6, C7) -/

/-- A fully reliable chat environment with the deterministic id
generator. -/
def chatEnv : CEnv := { penv := okEnv }

/-- A `session/update` notification frame. -/
def sessionUpdateMsg (upd : JsonValue) : JsonValue :=
  .obj [("jsonrpc", .str "2.0"), ("method", .str "session/update"),
        ("params", .obj [("sessionId", .str "s1"), ("update", upd)])]

/-- An `agent_message_chunk` update carrying one text block. -/
def chunkMsg (t : String) : JsonValue :=
  sessionUpdateMsg (.obj [("sessionUpdate", .str "agent_message_chunk"),
    ("content", .obj [("type", .str "text"), ("text", .str t)])])

/-- A `tool_call` / `tool_call_update` update. -/
def toolMsg (uptype tid status : String) : JsonValue :=
  sessionUpdateMsg (.obj [("sessionUpdate", .str uptype),
    ("toolCallId", .str tid), ("title", .str "Check"), ("status", .str status)])

/-- The `initialize` response of the concrete runs (no auth methods); with
`chatEnv`, `handleUserMessage` consumes ids 0–3 and `initialize` id 4. -/
def initRespPlain : JsonValue :=
  .obj [("jsonrpc", .str "2.0"), ("id", .str "init-4"),
        ("result", .obj [("protocolVersion", .num 1)])]

/-- The `session/new` response of the concrete runs (id counter 5). -/
def newRespPlain : JsonValue :=
  .obj [("jsonrpc", .str "2.0"), ("id", .str "session-5"),
        ("result", .obj [("sessionId", .str "s1")])]

/-- The sentences delivered to `onSentenceReady`, in order. -/
def sentencesOf (out : List ChatOut) : List String :=
  out.filterMap fun e =>
    match e with
    | .sentenceReady s => some s
    | _ => none

/-- Number of "cancelled" UI snippets. -/
def countCancelledSnippets (out : List ChatOut) : Nat :=
  out.countP fun e =>
    match e with
    | .cancelledSnippet => true
    | _ => false

/-- Number of working-state-cleared (`isWorking = false`) notifications. -/
def countWorkingCleared (out : List ChatOut) : Nat :=
  out.countP fun e =>
    match e with
    | .workingStateChange false _ => true
    | _ => false

/-- One turn receiving the chunks "Hi. Bye" and " now. Go" and then a tool
call (which force-flushes the buffer). -/
def sentenceSkipRun (s : Chat) : ChatRes :=
  (chatHandleUserMessage chatEnv "go" s).bind fun s =>
  (chatHandleAgentMessage chatEnv (chunkMsg "Hi. Bye") s).bind fun r =>
  (chatHandleAgentMessage chatEnv (chunkMsg " now. Go") r.2).bind fun r =>
  (chatHandleAgentMessage chatEnv (toolMsg "tool_call" "t1" "pending") r.2).map fun r => r.2

/-- One turn receiving "Let me check that" (no terminal punctuation) and
then a tool call. -/
def sentenceFlushRun (s : Chat) : ChatRes :=
  (chatHandleUserMessage chatEnv "go" s).bind fun s =>
  (chatHandleAgentMessage chatEnv (chunkMsg "Let me check that") s).bind fun r =>
  (chatHandleAgentMessage chatEnv (toolMsg "tool_call" "t1" "pending") r.2).map fun r => r.2

/-- C3 fails on the code: `processSentenceBuffer` shrinks `raw` to the
extractor's remainder yet sets `sentencesSent := sentences.length`, so the
first sentences of the NEXT extraction are skipped.  In the run below the
accumulated text completes the sentences "Hi." and "Bye now.", and "Go" is
force-flushed by the tool call — but only "Hi." and "Go" ever reach
`onSentenceReady`; "Bye now." is silently lost (the second extraction on
"Bye now. Go" finds it at position 0 < sentencesSent = 1).  The claim's
forced-flush example does hold: "Let me check that" is delivered exactly
once. -/
theorem chat_sentence_skip_bug :
    (sentenceSkipRun (Chat.mk0 "default")).map (fun s => sentencesOf s.out) =
      .ok ["Hi.", "Go"] ∧
    extractSentences "Bye now. Go" = (["Bye now."], "Go") ∧
    (sentenceFlushRun (Chat.mk0 "default")).map (fun s => sentencesOf s.out) =
      .ok ["Let me check that"] := by
  refine ⟨rfl, by decide, rfl⟩

/-- The segment-interleaving run of C6: a ready session, chunks "A" and
"B", a tool call with a terminal update, then chunk "C". -/
def segmentInterleavingRun (s : Chat) : ChatRes :=
  (chatHandleUserMessage chatEnv "go" s).bind fun s =>
  (chatHandleAgentMessage chatEnv initRespPlain s).bind fun r =>
  (chatHandleAgentMessage chatEnv newRespPlain r.2).bind fun r =>
  (chatHandleAgentMessage chatEnv (chunkMsg "A") r.2).bind fun r =>
  (chatHandleAgentMessage chatEnv (chunkMsg "B") r.2).bind fun r =>
  (chatHandleAgentMessage chatEnv (toolMsg "tool_call" "t1" "pending") r.2).bind fun r =>
  (chatHandleAgentMessage chatEnv (toolMsg "tool_call_update" "t1" "success") r.2).bind fun r =>
  (chatHandleAgentMessage chatEnv (chunkMsg "C") r.2).map fun r => r.2

/-- The same run stopped right after the first tool_call. -/
def segmentToToolCallRun (s : Chat) : ChatRes :=
  (chatHandleUserMessage chatEnv "go" s).bind fun s =>
  (chatHandleAgentMessage chatEnv initRespPlain s).bind fun r =>
  (chatHandleAgentMessage chatEnv newRespPlain r.2).bind fun r =>
  (chatHandleAgentMessage chatEnv (chunkMsg "A") r.2).bind fun r =>
  (chatHandleAgentMessage chatEnv (chunkMsg "B") r.2).bind fun r =>
  (chatHandleAgentMessage chatEnv (toolMsg "tool_call" "t1" "pending") r.2).map fun r => r.2

/-- The text segments (id, content, isClosed) and current segment id of
each prompt state. -/
def segmentsOf (s : Chat) : List (List (String × String × Bool) × Option String) :=
  s.promptStates.map fun st =>
    (st.textSegments.map fun seg => (seg.id, seg.content, seg.isClosed),
     st.currentSegmentId)

/-- C6: chunks "A" and "B" accumulate into one segment whose final content
is "AB"; the first tool_call marks it `isClosed` and clears
`currentSegmentId`; chunk "C" opens a fresh segment (a different id)
containing "C" instead of being appended to the first. -/
theorem chat_segment_interleaving :
    (segmentToToolCallRun (Chat.mk0 "default")).map segmentsOf =
      .ok [([("segment-7", "AB", true)], none)] ∧
    (segmentInterleavingRun (Chat.mk0 "default")).map segmentsOf =
      .ok [([("segment-7", "AB", true), ("segment-9", "C", false)],
            some "segment-9")] :=
  ⟨rfl, rfl⟩

/-- Cancel twice in a row after a completed handshake and a sent prompt. -/
def doubleCancelRun (s : Chat) : ChatRes :=
  (chatHandleUserMessage chatEnv "go" s).bind fun s =>
  (chatHandleAgentMessage chatEnv initRespPlain s).bind fun r =>
  (chatHandleAgentMessage chatEnv newRespPlain r.2).bind fun r =>
  (chatCancelPrompt chatEnv r.2).bind fun r =>
  (chatCancelPrompt chatEnv r.2).map fun r => r.2

/-- Cancel, then a late prompt result with `stopReason: "cancelled"` for
the same turn (the prompt was dispatched with request id `prompt-3`). -/
def cancelThenLateResultRun (s : Chat) : ChatRes :=
  (chatHandleUserMessage chatEnv "go" s).bind fun s =>
  (chatHandleAgentMessage chatEnv initRespPlain s).bind fun r =>
  (chatHandleAgentMessage chatEnv newRespPlain r.2).bind fun r =>
  (chatCancelPrompt chatEnv r.2).bind fun r =>
  (chatHandleAgentMessage chatEnv
    (.obj [("jsonrpc", .str "2.0"), ("id", .str "prompt-3"),
           ("result", .obj [("stopReason", .str "cancelled")])]) r.2).map fun r => r.2

/-- C5: the cancellation finalizer runs at most once per turn: cancelling
twice in a row, or cancelling and then receiving a late
`stopReason:"cancelled"` result for the same turn, yields exactly one
"cancelled" snippet and exactly one working-state-cleared notification;
and in general `finalizeCancelledState` is a no-op on a prompt state whose
`cancelNoticeShown` flag is already set. -/
theorem cancelPrompt_idempotent :
    (doubleCancelRun (Chat.mk0 "default")).map
        (fun s => (countCancelledSnippets s.out, countWorkingCleared s.out)) =
      .ok (1, 1) ∧
    (cancelThenLateResultRun (Chat.mk0 "default")).map
        (fun s => (countCancelledSnippets s.out, countWorkingCleared s.out)) =
      .ok (1, 1) ∧
    (∀ (env : CEnv) (i : Nat) (c : Chat) (st : ChatPromptState),
      c.promptStates[i]? = some st → st.cancelNoticeShown = true →
      finalizeCancelledState env i c = .ok c) := by
  refine ⟨rfl, rfl, ?_⟩
  intro env i c st hget hflag
  simp [finalizeCancelledState, readPS, hget, hflag]

/-- A prompt state already finalised by a cancellation. -/
def cancelledPromptState : ChatPromptState :=
  { requestId := none, agentMessageId := "agent-2", systemMessageId := "system-1",
    agentContent := "", thoughtContent := "", completed := true, cancelled := true,
    cancelNoticeShown := true, noticeCleared := true, toolMessages := [],
    textSegments := [], sentenceBuffer := { raw := "", sentencesSent := 0 },
    currentSegmentId := none }

/-- A chat whose only turn has already been finalised. -/
def cancelledChat : Chat :=
  { initialPermissionMode := "default", promptStates := [cancelledPromptState] }

/-- Witness for C5's generic guard at a concrete state. -/
theorem cancelPrompt_idempotent_witness :
    finalizeCancelledState chatEnv 0 cancelledChat = .ok cancelledChat :=
  cancelPrompt_idempotent.2.2 chatEnv 0 cancelledChat cancelledPromptState rfl rfl

/-- A chat environment whose `pushSnippet` callback always throws. -/
def pushFailEnv : CEnv := { penv := okEnv, pushThrows := fun _ => true }

/-- A chat environment whose `onSentenceReady` callback always throws. -/
def sentenceFailEnv : CEnv := { penv := okEnv, sentenceThrows := fun _ => true }

/-- Counterexample to C7 as stated: an exception thrown by the
`pushSnippet` callback is NOT caught — `handleUserMessage` propagates it
to its caller (no call site wraps `pushSnippet` in `try`/`catch`). -/
theorem pushSnippet_throw_escapes :
    chatHandleUserMessage pushFailEnv "hi" (Chat.mk0 "default") = .error () := rfl

/-- The sentence pipeline driven with an always-throwing
`onSentenceReady`. -/
def sentenceThrowRun (s : Chat) : ChatRes :=
  (chatHandleUserMessage sentenceFailEnv "go" s).bind fun s =>
  (chatHandleAgentMessage sentenceFailEnv (chunkMsg "Hi. Bye") s).bind fun r =>
  (chatHandleAgentMessage sentenceFailEnv (toolMsg "tool_call" "t1" "pending") r.2).map
    fun r => r.2

/-- C7 (amended): exceptions thrown by `onSentenceReady` are caught inside
the core (both at incremental extraction and at the forced flush) — the
operations complete normally and the sentence is merely dropped; an
exception thrown by `pushSnippet` is not caught and escapes (see the
counterexample). -/
theorem sentenceReady_throw_swallowed :
    (sentenceThrowRun (Chat.mk0 "default")).map (fun s => sentencesOf s.out) =
      .ok [] ∧
    (sentenceSkipRun (Chat.mk0 "default")).map (fun s => sentencesOf s.out) =
      .ok ["Hi.", "Go"] := ⟨rfl, rfl⟩

/-! ## WebSocket bridge (`bridgeSockets`, src/unnamed/part_003)

Payloads are abstracted as `Nat`.  The two transform options return
`Except Unit (List Nat)`: `.error` models a thrown transform, `.ok []`
the `null`/`undefined` result, and a singleton the non-array case.  The
`resolved` flag doubles as "listeners removed": `cleanup` removes every
listener in the same synchronous block that sets `resolved`, so a later
event finds no listener — `bridgeStep` ignores events once `resolved`. -/

inductive BEvent where
  | localMessage (data : Nat)
  | remoteMessage (data : Nat)
  | localClose (code : Option Nat) (reason : Option String)
  | remoteClose (code : Option Nat) (reason : Option String)
  | localError
  | remoteError

inductive BOut where
  | sendLocal (data : Nat)
  | sendRemote (data : Nat)
  | closeLocal (code : Nat) (reason : String)
  | closeRemote (code : Nat) (reason : String)
  | resolve

structure BEnv where
  transformLocalToRemote : Option (Nat → Except Unit (List Nat)) := none
  transformRemoteToLocal : Option (Nat → Except Unit (List Nat)) := none
  localSendFails : Nat → Bool := fun _ => false
  remoteSendFails : Nat → Bool := fun _ => false

structure BridgeState where
  resolved : Bool := false
  localClosed : Bool := false
  remoteClosed : Bool := false

def BridgeState.start : BridgeState := {}

/-- `cleanup`: guard on `resolved`, remove the listeners, resolve. -/
def bridgeCleanup (s : BridgeState) : BridgeState × List BOut :=
  if s.resolved then (s, [])
  else ({ s with resolved := true }, [BOut.resolve])

/-- `applyTransform`: no transform forwards the payload unchanged; a
`null` result drops it; the single/array results are the returned list. -/
def applyTransform (data : Nat) (tf : Option (Nat → Except Unit (List Nat))) :
    Except Unit (List Nat) :=
  match tf with
  | none => .ok [data]
  | some f => f data

/-- `forward`: send payloads in order until one `send` throws; returns
the sends that happened and whether the failure callback fires. -/
def bridgeForward (fails : Nat → Bool) (mk : Nat → BOut) :
    List Nat → List BOut × Bool
  | [] => ([], false)
  | d :: ds =>
    if fails d then ([], true)
    else
      let r := bridgeForward fails mk ds
      (mk d :: r.1, r.2)

/-- `abortBridge`: close whichever sides are still open with the given
code/reason, then clean up. -/
def abortBridge (code : Nat) (reason : String) (s : BridgeState) :
    BridgeState × List BOut :=
  let o1 : List BOut := if s.localClosed then [] else [BOut.closeLocal code reason]
  let o2 : List BOut := if s.remoteClosed then [] else [BOut.closeRemote code reason]
  let r := bridgeCleanup { s with localClosed := true, remoteClosed := true }
  (r.1, o1 ++ o2 ++ r.2)

/-- `handleLocalMessage`. -/
def handleLocalMessage (env : BEnv) (data : Nat) (s : BridgeState) :
    BridgeState × List BOut :=
  if s.remoteClosed then (s, [])
  else
    match applyTransform data env.transformLocalToRemote with
    | .error _ => abortBridge 1011 "bridge_transform_failure" s
    | .ok payloads =>
      if payloads.isEmpty then (s, [])
      else
        let f := bridgeForward env.remoteSendFails BOut.sendRemote payloads
        if f.2 then
          let r := bridgeCleanup { s with remoteClosed := true }
          (r.1, f.1 ++ BOut.closeRemote 1011 "bridge_forward_failure" :: r.2)
        else (s, f.1)

/-- `handleRemoteMessage`. -/
def handleRemoteMessage (env : BEnv) (data : Nat) (s : BridgeState) :
    BridgeState × List BOut :=
  if s.localClosed then (s, [])
  else
    match applyTransform data env.transformRemoteToLocal with
    | .error _ => abortBridge 1011 "bridge_transform_failure" s
    | .ok payloads =>
      if payloads.isEmpty then (s, [])
      else
        let f := bridgeForward env.localSendFails BOut.sendLocal payloads
        if f.2 then
          let r := bridgeCleanup { s with localClosed := true }
          (r.1, f.1 ++ BOut.closeLocal 1011 "bridge_forward_failure" :: r.2)
        else (s, f.1)

/-- `handleLocalClose` (`event.code ?? 1000`, `event.reason ?? "peer_closed"`). -/
def handleLocalClose (code : Option Nat) (reason : Option String) (s : BridgeState) :
    BridgeState × List BOut :=
  if s.remoteClosed then bridgeCleanup { s with localClosed := true }
  else
    let r := bridgeCleanup { s with localClosed := true, remoteClosed := true }
    (r.1, BOut.closeRemote (code.getD 1000) (reason.getD "peer_closed") :: r.2)

/-- `handleRemoteClose`. -/
def handleRemoteClose (code : Option Nat) (reason : Option String) (s : BridgeState) :
    BridgeState × List BOut :=
  if s.localClosed then bridgeCleanup { s with remoteClosed := true }
  else
    let r := bridgeCleanup { s with localClosed := true, remoteClosed := true }
    (r.1, BOut.closeLocal (code.getD 1000) (reason.getD "peer_closed") :: r.2)

/-- `handleLocalError` (closes local first, then remote, both 1011). -/
def handleLocalError (s : BridgeState) : BridgeState × List BOut :=
  let o1 : List BOut := if s.localClosed then [] else [BOut.closeLocal 1011 "peer_error"]
  let o2 : List BOut := if s.remoteClosed then [] else [BOut.closeRemote 1011 "peer_error"]
  let r := bridgeCleanup { s with localClosed := true, remoteClosed := true }
  (r.1, o1 ++ o2 ++ r.2)

/-- `handleRemoteError` (closes remote first, then local). -/
def handleRemoteError (s : BridgeState) : BridgeState × List BOut :=
  let o1 : List BOut := if s.remoteClosed then [] else [BOut.closeRemote 1011 "peer_error"]
  let o2 : List BOut := if s.localClosed then [] else [BOut.closeLocal 1011 "peer_error"]
  let r := bridgeCleanup { s with localClosed := true, remoteClosed := true }
  (r.1, o1 ++ o2 ++ r.2)

/-- Dispatch one event; after `cleanup` the listeners are gone, so a
resolved bridge ignores everything. -/
def bridgeStep (env : BEnv) (s : BridgeState) (e : BEvent) :
    BridgeState × List BOut :=
  if s.resolved then (s, [])
  else
    match e with
    | .localMessage d => handleLocalMessage env d s
    | .remoteMessage d => handleRemoteMessage env d s
    | .localClose c r => handleLocalClose c r s
    | .remoteClose c r => handleRemoteClose c r s
    | .localError => handleLocalError s
    | .remoteError => handleRemoteError s

/-- Run a queue of events delivered in order within one tick. -/
def bridgeRun (env : BEnv) (s : BridgeState) : List BEvent → BridgeState × List BOut
  | [] => (s, [])
  | e :: es =>
    let r1 := bridgeStep env s e
    let r2 := bridgeRun env r1.1 es
    (r2.1, r1.2 ++ r2.2)

def isResolve : BOut → Bool
  | .resolve => true
  | _ => false

/-- How many times the bridge promise was resolved. -/
def countResolves (l : List BOut) : Nat := l.countP fun o => isResolve o

def isShutdownEvent : BEvent → Bool
  | .localClose _ _ => true
  | .remoteClose _ _ => true
  | .localError => true
  | .remoteError => true
  | _ => false

lemma countResolves_append (a b : List BOut) :
    countResolves (a ++ b) = countResolves a + countResolves b := by
  simp [countResolves, List.countP_append]

lemma bridgeCleanup_unresolved (s : BridgeState) (h : s.resolved = false) :
    bridgeCleanup s = ({ s with resolved := true }, [BOut.resolve]) := by
  simp [bridgeCleanup, h]

lemma bridgeForward_no_resolve (fails : Nat → Bool) (mk : Nat → BOut)
    (hmk : ∀ d, isResolve (mk d) = false) :
    ∀ ds : List Nat, countResolves (bridgeForward fails mk ds).1 = 0 := by
  intro ds
  induction ds with
  | nil => rfl
  | cons d ds ih =>
    by_cases h : fails d
    · simp [bridgeForward, h, countResolves]
    · simp only [bridgeForward, h, if_neg, Bool.false_eq_true, ite_false]
      simpa [countResolves, List.countP_cons, hmk d] using ih

lemma abortBridge_delta (code : Nat) (reason : String) (s : BridgeState)
    (h : s.resolved = false) :
    countResolves (abortBridge code reason s).2 = 1 ∧
    (abortBridge code reason s).1.resolved = true := by
  unfold abortBridge
  rw [bridgeCleanup_unresolved _ (by simpa using h)]
  refine ⟨?_, rfl⟩
  simp only [countResolves_append]
  split <;> split <;> simp [countResolves, isResolve]

lemma handleLocalMessage_delta (env : BEnv) (d : Nat) (s : BridgeState)
    (h : s.resolved = false) :
    countResolves (handleLocalMessage env d s).2 =
      if (handleLocalMessage env d s).1.resolved then 1 else 0 := by
  unfold handleLocalMessage
  by_cases hc : s.remoteClosed
  · simp [hc, h, countResolves]
  · simp only [hc, Bool.false_eq_true, ite_false]
    cases happ : applyTransform d env.transformLocalToRemote with
    | error e =>
      have := abortBridge_delta 1011 "bridge_transform_failure" s h
      simp [this.1, this.2]
    | ok payloads =>
      by_cases hp : payloads.isEmpty
      · simp [hp, h, countResolves]
      · simp only [hp, Bool.false_eq_true, ite_false]
        by_cases hf : (bridgeForward env.remoteSendFails BOut.sendRemote payloads).2
        · rw [bridgeCleanup_unresolved _ (by simpa using h)]
          simp only [hf, ite_true]
          rw [countResolves_append,
            bridgeForward_no_resolve env.remoteSendFails BOut.sendRemote
              (fun _ => rfl) payloads]
          rfl
        · simp only [hf, Bool.false_eq_true, ite_false, h]
          rw [bridgeForward_no_resolve env.remoteSendFails BOut.sendRemote
              (fun _ => rfl) payloads]

lemma handleRemoteMessage_delta (env : BEnv) (d : Nat) (s : BridgeState)
    (h : s.resolved = false) :
    countResolves (handleRemoteMessage env d s).2 =
      if (handleRemoteMessage env d s).1.resolved then 1 else 0 := by
  unfold handleRemoteMessage
  by_cases hc : s.localClosed
  · simp [hc, h, countResolves]
  · simp only [hc, Bool.false_eq_true, ite_false]
    cases happ : applyTransform d env.transformRemoteToLocal with
    | error e =>
      have := abortBridge_delta 1011 "bridge_transform_failure" s h
      simp [this.1, this.2]
    | ok payloads =>
      by_cases hp : payloads.isEmpty
      · simp [hp, h, countResolves]
      · simp only [hp, Bool.false_eq_true, ite_false]
        by_cases hf : (bridgeForward env.localSendFails BOut.sendLocal payloads).2
        · rw [bridgeCleanup_unresolved _ (by simpa using h)]
          simp only [hf, ite_true]
          rw [countResolves_append,
            bridgeForward_no_resolve env.localSendFails BOut.sendLocal
              (fun _ => rfl) payloads]
          rfl
        · simp only [hf, Bool.false_eq_true, ite_false, h]
          rw [bridgeForward_no_resolve env.localSendFails BOut.sendLocal
              (fun _ => rfl) payloads]

lemma handleLocalClose_delta (c : Option Nat) (r : Option String) (s : BridgeState)
    (h : s.resolved = false) :
    countResolves (handleLocalClose c r s).2 = 1 ∧
    (handleLocalClose c r s).1.resolved = true := by
  unfold handleLocalClose
  by_cases hc : s.remoteClosed
  · rw [if_pos hc, bridgeCleanup_unresolved _ (by simpa using h)]
    exact ⟨rfl, rfl⟩
  · rw [if_neg (by simpa using hc), bridgeCleanup_unresolved _ (by simpa using h)]
    exact ⟨rfl, rfl⟩

lemma handleRemoteClose_delta (c : Option Nat) (r : Option String) (s : BridgeState)
    (h : s.resolved = false) :
    countResolves (handleRemoteClose c r s).2 = 1 ∧
    (handleRemoteClose c r s).1.resolved = true := by
  unfold handleRemoteClose
  by_cases hc : s.localClosed
  · rw [if_pos hc, bridgeCleanup_unresolved _ (by simpa using h)]
    exact ⟨rfl, rfl⟩
  · rw [if_neg (by simpa using hc), bridgeCleanup_unresolved _ (by simpa using h)]
    exact ⟨rfl, rfl⟩

lemma handleLocalError_delta (s : BridgeState) (h : s.resolved = false) :
    countResolves (handleLocalError s).2 = 1 ∧
    (handleLocalError s).1.resolved = true := by
  unfold handleLocalError
  rw [bridgeCleanup_unresolved _ (by simpa using h)]
  refine ⟨?_, rfl⟩
  simp only [countResolves_append]
  split <;> split <;> simp [countResolves, isResolve]

lemma handleRemoteError_delta (s : BridgeState) (h : s.resolved = false) :
    countResolves (handleRemoteError s).2 = 1 ∧
    (handleRemoteError s).1.resolved = true := by
  unfold handleRemoteError
  rw [bridgeCleanup_unresolved _ (by simpa using h)]
  refine ⟨?_, rfl⟩
  simp only [countResolves_append]
  split <;> split <;> simp [countResolves, isResolve]

lemma bridgeStep_stay (env : BEnv) (s : BridgeState) (e : BEvent)
    (h : s.resolved = true) : bridgeStep env s e = (s, []) := by
  simp [bridgeStep, h]

lemma bridgeStep_delta (env : BEnv) (s : BridgeState) (e : BEvent) :
    countResolves (bridgeStep env s e).2 + (if s.resolved then 1 else 0) =
      if (bridgeStep env s e).1.resolved then 1 else 0 := by
  by_cases hr : s.resolved
  · simp [bridgeStep, hr, countResolves]
  · have hr' : s.resolved = false := by simpa using hr
    simp only [bridgeStep, hr', Bool.false_eq_true, ite_false, Nat.add_zero]
    cases e with
    | localMessage d => exact handleLocalMessage_delta env d s hr'
    | remoteMessage d => exact handleRemoteMessage_delta env d s hr'
    | localClose c r =>
      have := handleLocalClose_delta c r s hr'
      simp [this.1, this.2]
    | remoteClose c r =>
      have := handleRemoteClose_delta c r s hr'
      simp [this.1, this.2]
    | localError =>
      have := handleLocalError_delta s hr'
      simp [this.1, this.2]
    | remoteError =>
      have := handleRemoteError_delta s hr'
      simp [this.1, this.2]

lemma bridgeStep_shutdown_resolves (env : BEnv) (s : BridgeState) (e : BEvent)
    (h : isShutdownEvent e = true) : (bridgeStep env s e).1.resolved = true := by
  by_cases hr : s.resolved
  · rw [bridgeStep_stay env s e hr]; exact hr
  · have hr' : s.resolved = false := by simpa using hr
    simp only [bridgeStep, hr', Bool.false_eq_true, ite_false]
    cases e with
    | localMessage d => simp [isShutdownEvent] at h
    | remoteMessage d => simp [isShutdownEvent] at h
    | localClose c r => exact (handleLocalClose_delta c r s hr').2
    | remoteClose c r => exact (handleRemoteClose_delta c r s hr').2
    | localError => exact (handleLocalError_delta s hr').2
    | remoteError => exact (handleRemoteError_delta s hr').2

lemma bridgeRun_stay (env : BEnv) :
    ∀ (es : List BEvent) (s : BridgeState), s.resolved = true →
      bridgeRun env s es = (s, []) := by
  intro es
  induction es with
  | nil => intro s _; rfl
  | cons e es ih =>
    intro s h
    simp [bridgeRun, bridgeStep_stay env s e h, ih s h]

lemma bridgeRun_delta (env : BEnv) :
    ∀ (es : List BEvent) (s : BridgeState),
      countResolves (bridgeRun env s es).2 + (if s.resolved then 1 else 0) =
        if (bridgeRun env s es).1.resolved then 1 else 0 := by
  intro es
  induction es with
  | nil => intro s; simp [bridgeRun, countResolves]
  | cons e es ih =>
    intro s
    simp only [bridgeRun, countResolves_append]
    have h1 := bridgeStep_delta env s e
    have h2 := ih (bridgeStep env s e).1
    omega

lemma bridgeRun_shutdown (env : BEnv) :
    ∀ (es : List BEvent) (s : BridgeState), es.any isShutdownEvent = true →
      (bridgeRun env s es).1.resolved = true := by
  intro es
  induction es with
  | nil => intro s h; simp at h
  | cons e es ih =>
    intro s h
    simp only [bridgeRun]
    rcases (List.any_cons .. ▸ h : (isShutdownEvent e || es.any isShutdownEvent) = true)
        |> Bool.or_eq_true_iff.mp with he | hes
    · have hres := bridgeStep_shutdown_resolves env s e he
      rw [bridgeRun_stay env es (bridgeStep env s e).1 hres]
      exact hres
    · exact ih (bridgeStep env s e).1 hes

/-- C9: (1) on a live bridge, a clean close of one endpoint closes the
other with the same code and reason, defaulting to `1000` and
`"peer_closed"` when absent, and resolves the promise; (2) over ANY queue
of events the promise resolves at most once, and exactly once as soon as
the queue contains a close or error event, whichever shutdown path fires;
(3) concretely, both endpoints closing within the same tick still yields
a single resolution (the second close finds the listeners removed). -/
theorem bridge_close_symmetry_single_resolve :
    (∀ (env : BEnv) (code : Option Nat) (reason : Option String),
      bridgeStep env BridgeState.start (.localClose code reason) =
        ({ resolved := true, localClosed := true, remoteClosed := true },
         [.closeRemote (code.getD 1000) (reason.getD "peer_closed"), .resolve]) ∧
      bridgeStep env BridgeState.start (.remoteClose code reason) =
        ({ resolved := true, localClosed := true, remoteClosed := true },
         [.closeLocal (code.getD 1000) (reason.getD "peer_closed"), .resolve])) ∧
    (∀ (env : BEnv) (es : List BEvent),
      countResolves (bridgeRun env BridgeState.start es).2 ≤ 1 ∧
      (es.any isShutdownEvent = true →
        countResolves (bridgeRun env BridgeState.start es).2 = 1)) ∧
    bridgeRun {} BridgeState.start
        [.localClose (some 1000) (some "bye"), .remoteClose (some 1000) (some "bye")] =
      ({ resolved := true, localClosed := true, remoteClosed := true },
       [.closeRemote 1000 "bye", .resolve]) := by
  refine ⟨fun env code reason => ⟨rfl, rfl⟩, fun env es => ?_, rfl⟩
  have hd := bridgeRun_delta env es BridgeState.start
  have hind : (if BridgeState.start.resolved then 1 else 0) = 0 := rfl
  rw [hind, Nat.add_zero] at hd
  constructor
  · rw [hd]
    split <;> simp
  · intro hsh
    rw [hd, bridgeRun_shutdown env es BridgeState.start hsh]
    rfl

/-- Witness for C9 at a concrete environment and event queue. -/
theorem bridge_close_symmetry_single_resolve_witness :
    ([BEvent.localError, BEvent.remoteClose none none].any isShutdownEvent = true) ∧
    countResolves (bridgeRun {} BridgeState.start
        [BEvent.localError, BEvent.remoteClose none none]).2 = 1 :=
  ⟨rfl, (bridge_close_symmetry_single_resolve.2.1 {}
      [BEvent.localError, BEvent.remoteClose none none]).2 rfl⟩
